import Mathlib

/-!
Verification development for the snapshot-transfer and chain-write core of a
distributed graph storage engine (files `clients/storage/InternalStorageClient.cpp`
and `kvstore/raftex/SnapshotManager.cpp`).

The C++ is shallowly embedded: machine integers become `Nat`/`Int`, thrift
structures become Lean structures with the same field names, `folly::Try` becomes
`Option` (none = the transport raised an exception), `StatusOr` keeps an explicit
status code, and the asynchronous control flow of each operation is replayed as a
pure recursion that emits an event trace (leader lookups, sends, sleeps, promise
resolutions).  External collaborators that are only declared in the excerpt
(`getLeader`, the RPC transport, `accessAllRowsInSnapshot`) are supplied as
oracles/scripts quantified over in the theorems.
-/

namespace Nebula

/-- Graph space identifier (`GraphSpaceID`). -/
abbrev GraphSpaceID := Nat

/-- Partition identifier (`PartitionID`). -/
abbrev PartitionID := Nat

/-- Election term (`TermID`). -/
abbrev TermID := Int

/-- Log position identifier (`LogID`). -/
abbrev LogID := Int

/-- Network address of a replica (`HostAddr`): host name and port. -/
structure HostAddr where
  host : String
  port : Int
deriving DecidableEq, Repr

/-- Modelled from the spec: the fixed numeric offset added to a node's
client-facing port to reach its replication-only internal endpoint
(`kInternalPortOffset`, declared outside the excerpt).  The claims never depend
on its numeric value, only on it being a fixed constant. -/
def kInternalPortOffset : Int := 1

/-- The error-code taxonomy (`nebula::cpp2::ErrorCode`) as used by this core.
Codes other than the named ones flow through opaquely as `E_OTHER n`. -/
inductive ErrorCode where
  | SUCCEEDED
  | E_RPC_FAILURE
  | E_LEADER_CHANGED
  | E_UNKNOWN
  | E_SPACE_NOT_FOUND
  | E_OTHER (n : Int)
deriving DecidableEq, Repr

/-- Status codes of `nebula::Status` (`Status::Code`).  `kOk` and
`kLeaderChanged` are the ones `getErrorCode` distinguishes; every other code is
an opaque `kOther n`. -/
inductive StatusCode where
  | kOk
  | kLeaderChanged
  | kOther (n : Nat)
deriving DecidableEq, Repr

/-- One entry of the per-partition failure list of a structured storage
response (`failed_parts`): the partition and its failure code. -/
structure PartitionResult where
  code : ErrorCode
  part : PartitionID
deriving DecidableEq, Repr

/-- The structured storage RPC response body: its `result.failed_parts` list. -/
structure StorageResponse where
  failed_parts : List PartitionResult
deriving DecidableEq, Repr

/-- `StatusOr<Response>` as `getErrorCode` observes it: a status code plus the
response value (the value is only consulted when the status is `kOk`, mirroring
`stResp.ok()` / `stResp.status().code()` / `stResp.value()`). -/
structure StatusOrResponse where
  statusCode : StatusCode
  respValue : StorageResponse
deriving DecidableEq, Repr

/-- `folly::Try<StatusOr<Response>>`: `none` models the transport having
produced an exception instead of a value (`!tryResp.hasValue()`). -/
abbrev TryResponse := Option StatusOrResponse

/-- Shallow embedding of `getErrorCode` (InternalStorageClient.cpp, lines
13-37): no transport value → `E_RPC_FAILURE`; non-ok status → `E_LEADER_CHANGED`
for `kLeaderChanged` and `E_UNKNOWN` otherwise; ok status → the code of the
first failed part if any (the `for` loop returns on its first iteration), else
`SUCCEEDED`. -/
def getErrorCode (tryResp : TryResponse) : ErrorCode :=
  match tryResp with
  | none => ErrorCode.E_RPC_FAILURE
  | some stResp =>
    if stResp.statusCode = StatusCode.kOk then
      match stResp.respValue.failed_parts with
      | [] => ErrorCode.SUCCEEDED
      | p :: _ => p.code
    else
      match stResp.statusCode with
      | StatusCode.kLeaderChanged => ErrorCode.E_LEADER_CHANGED
      | _ => ErrorCode.E_UNKNOWN

/-- `folly::EventBase*`: an opaque event-loop handle; `none` models the default
argument (a null pointer, as when the parameter is omitted at a call site). -/
abbrev EventBase := Option Nat

/-- `cpp2::UpdateEdgeRequest` as the chain client reads it: its space id, its
single partition id, and the rest of the mutation payload kept opaque. -/
structure UpdateEdgeRequest where
  space_id : GraphSpaceID
  part_id : PartitionID
  payload : String
deriving DecidableEq, Repr

/-- `cpp2::AddEdgesRequest`: space id, per-partition new-edge batches (batch
bodies opaque), property names and the if-not-exists flag. -/
structure AddEdgesRequest where
  space_id : GraphSpaceID
  parts : List (PartitionID × String)
  prop_names : List String
  if_not_exists : Bool
deriving DecidableEq, Repr

/-- `cpp2::DeleteEdgesRequest`: space id and per-partition edge-key batches
(batch bodies opaque). -/
structure DeleteEdgesRequest where
  space_id : GraphSpaceID
  parts : List (PartitionID × String)
deriving DecidableEq, Repr

/-- `cpp2::ChainUpdateEdgeRequest`: the reversed update request plus the
originating term and the optional edge version. -/
structure ChainUpdateEdgeRequest where
  update_edge_request : UpdateEdgeRequest
  term : TermID
  edge_version : Option Int
deriving DecidableEq, Repr

/-- `cpp2::ChainAddEdgesRequest`: the add-edges payload plus the originating
term and the optional edge version. -/
structure ChainAddEdgesRequest where
  space_id : GraphSpaceID
  parts : List (PartitionID × String)
  prop_names : List String
  if_not_exists : Bool
  term : TermID
  edge_version : Option Int
deriving DecidableEq, Repr

/-- `cpp2::ChainDeleteEdgesRequest`: the delete-edges payload plus the
transaction id and the originating term. -/
structure ChainDeleteEdgesRequest where
  space_id : GraphSpaceID
  parts : List (PartitionID × String)
  txn_id : String
  term : TermID
deriving DecidableEq, Repr

/-- Shallow embedding of `InternalStorageClient::makeChainAddReq`
(InternalStorageClient.cpp, lines 120-133). -/
def makeChainAddReq (req : AddEdgesRequest) (termId : TermID) (ver : Option Int) :
    ChainAddEdgesRequest :=
  { space_id := req.space_id
    parts := req.parts
    prop_names := req.prop_names
    if_not_exists := req.if_not_exists
    term := termId
    edge_version := ver }

/-- Observable actions a chain operation performs, in order.  `ubEmptyParts`
marks the point where the C++ dereferences `parts.begin()` on an empty map
(undefined behavior); the model stops there. -/
inductive ChainEvent where
  | getLeaderCall (space : GraphSpaceID) (part : PartitionID) (ok : Bool)
  | sendUpdate (dst : HostAddr) (req : ChainUpdateEdgeRequest) (evb : EventBase)
  | sendAdd (dst : HostAddr) (req : ChainAddEdgesRequest) (evb : EventBase)
  | sendDelete (dst : HostAddr) (req : ChainDeleteEdgesRequest) (evb : EventBase)
  | sleepMs (ms : Nat)
  | setPromise (code : ErrorCode)
  | ubEmptyParts
deriving DecidableEq, Repr

/-- The environment a chain operation runs against, indexed by attempt number:
the leader-lookup collaborator `getLeader(space, part)` (declared outside the
excerpt; `none` = lookup not ok) and the transport outcome of the attempt's RPC
(`none` = the future completed with an exception). -/
structure ChainEnv where
  getLeader : Nat → GraphSpaceID → PartitionID → Option HostAddr
  rpcResp : Nat → TryResponse

/-- Shallow embedding of `InternalStorageClient::chainUpdateEdge`
(InternalStorageClient.cpp, lines 39-80), replayed as a trace-emitting
recursion: resolve the leader of `(space_id, part_id)` (failure resolves the
promise with `E_SPACE_NOT_FOUND` and stops), add the internal port offset,
build the chain request, send it, and on an `E_LEADER_CHANGED` extraction
sleep 500 ms and re-invoke the whole operation with the event base omitted
(its default); any other code resolves the promise.  `fuel` bounds the
unbounded C++ retry recursion; `attempt` indexes the environment. -/
def chainUpdateEdge (env : ChainEnv) (reversedRequest : UpdateEdgeRequest)
    (termOfSrc : TermID) (optVersion : Option Int) (evb : EventBase) :
    Nat → Nat → List ChainEvent
  | 0, _ => []
  | fuel + 1, attempt =>
    let spaceId := reversedRequest.space_id
    let partId := reversedRequest.part_id
    match env.getLeader attempt spaceId partId with
    | none =>
      [ChainEvent.getLeaderCall spaceId partId false,
       ChainEvent.setPromise ErrorCode.E_SPACE_NOT_FOUND]
    | some leader0 =>
      let leader : HostAddr := { leader0 with port := leader0.port + kInternalPortOffset }
      let chainReq : ChainUpdateEdgeRequest :=
        { update_edge_request := reversedRequest
          term := termOfSrc
          edge_version := optVersion }
      let code := getErrorCode (env.rpcResp attempt)
      ChainEvent.getLeaderCall spaceId partId true ::
        ChainEvent.sendUpdate leader chainReq evb ::
          (if code = ErrorCode.E_LEADER_CHANGED then
            ChainEvent.sleepMs 500 ::
              chainUpdateEdge env reversedRequest termOfSrc optVersion none fuel (attempt + 1)
          else
            [ChainEvent.setPromise code])

/-- Shallow embedding of `InternalStorageClient::chainAddEdges`
(InternalStorageClient.cpp, lines 82-118): the leader is looked up for the
first partition id of the request's parts map (`parts.begin()->first`, which on
an empty map is undefined behavior, marked `ubEmptyParts`); the chain request
is built by `makeChainAddReq`; retry on `E_LEADER_CHANGED` re-invokes with the
event base omitted. -/
def chainAddEdges (env : ChainEnv) (directReq : AddEdgesRequest) (termId : TermID)
    (optVersion : Option Int) (evb : EventBase) :
    Nat → Nat → List ChainEvent
  | 0, _ => []
  | fuel + 1, attempt =>
    match directReq.parts with
    | [] => [ChainEvent.ubEmptyParts]
    | (partId, _) :: _ =>
      let spaceId := directReq.space_id
      match env.getLeader attempt spaceId partId with
      | none =>
        [ChainEvent.getLeaderCall spaceId partId false,
         ChainEvent.setPromise ErrorCode.E_SPACE_NOT_FOUND]
      | some leader0 =>
        let leader : HostAddr := { leader0 with port := leader0.port + kInternalPortOffset }
        let chainReq := makeChainAddReq directReq termId optVersion
        let code := getErrorCode (env.rpcResp attempt)
        ChainEvent.getLeaderCall spaceId partId true ::
          ChainEvent.sendAdd leader chainReq evb ::
            (if code = ErrorCode.E_LEADER_CHANGED then
              ChainEvent.sleepMs 500 ::
                chainAddEdges env directReq termId optVersion none fuel (attempt + 1)
            else
              [ChainEvent.setPromise code])

/-- Shallow embedding of `InternalStorageClient::chainDeleteEdges`
(InternalStorageClient.cpp, lines 135-175): same shape as `chainAddEdges`,
building a `ChainDeleteEdgesRequest` carrying the transaction id and term. -/
def chainDeleteEdges (env : ChainEnv) (req : DeleteEdgesRequest) (txnId : String)
    (termId : TermID) (evb : EventBase) :
    Nat → Nat → List ChainEvent
  | 0, _ => []
  | fuel + 1, attempt =>
    match req.parts with
    | [] => [ChainEvent.ubEmptyParts]
    | (partId, _) :: _ =>
      let spaceId := req.space_id
      match env.getLeader attempt spaceId partId with
      | none =>
        [ChainEvent.getLeaderCall spaceId partId false,
         ChainEvent.setPromise ErrorCode.E_SPACE_NOT_FOUND]
      | some leader0 =>
        let leader : HostAddr := { leader0 with port := leader0.port + kInternalPortOffset }
        let chainReq : ChainDeleteEdgesRequest :=
          { space_id := req.space_id
            parts := req.parts
            txn_id := txnId
            term := termId }
        let code := getErrorCode (env.rpcResp attempt)
        ChainEvent.getLeaderCall spaceId partId true ::
          ChainEvent.sendDelete leader chainReq evb ::
            (if code = ErrorCode.E_LEADER_CHANGED then
              ChainEvent.sleepMs 500 ::
                chainDeleteEdges env req txnId termId none fuel (attempt + 1)
            else
              [ChainEvent.setPromise code])

/-- Number of leader lookups in a chain trace. -/
def lookupCount : List ChainEvent → Nat
  | [] => 0
  | ChainEvent.getLeaderCall _ _ _ :: r => lookupCount r + 1
  | _ :: r => lookupCount r

/-- Number of network sends in a chain trace. -/
def sendCount : List ChainEvent → Nat
  | [] => 0
  | ChainEvent.sendUpdate _ _ _ :: r => sendCount r + 1
  | ChainEvent.sendAdd _ _ _ :: r => sendCount r + 1
  | ChainEvent.sendDelete _ _ _ :: r => sendCount r + 1
  | _ :: r => sendCount r

/-- Number of backoff sleeps in a chain trace. -/
def sleepCount : List ChainEvent → Nat
  | [] => 0
  | ChainEvent.sleepMs _ :: r => sleepCount r + 1
  | _ :: r => sleepCount r

/-- The promise resolutions of a chain trace, in order. -/
def promiseSets : List ChainEvent → List ErrorCode
  | [] => []
  | ChainEvent.setPromise c :: r => c :: promiseSets r
  | _ :: r => promiseSets r

/-- The destination addresses of the sends of a chain trace, in order. -/
def sendDests : List ChainEvent → List HostAddr
  | [] => []
  | ChainEvent.sendUpdate d _ _ :: r => d :: sendDests r
  | ChainEvent.sendAdd d _ _ :: r => d :: sendDests r
  | ChainEvent.sendDelete d _ _ :: r => d :: sendDests r
  | _ :: r => sendDests r

/-- The durations (ms) of the backoff sleeps of a chain trace, in order. -/
def sleepDurations : List ChainEvent → List Nat
  | [] => []
  | ChainEvent.sleepMs ms :: r => ms :: sleepDurations r
  | _ :: r => sleepDurations r

/-- The event-base arguments of the sends of a chain trace, in order. -/
def sendEvbs : List ChainEvent → List EventBase
  | [] => []
  | ChainEvent.sendUpdate _ _ b :: r => b :: sendEvbs r
  | ChainEvent.sendAdd _ _ b :: r => b :: sendEvbs r
  | ChainEvent.sendDelete _ _ b :: r => b :: sendEvbs r
  | _ :: r => sendEvbs r

/-- An attempt of a chain operation is terminal when its leader lookup fails
or its extracted error code is anything but `E_LEADER_CHANGED` — exactly the
conditions under which the C++ resolves the promise instead of retrying. -/
def chainTerminal (env : ChainEnv) (space : GraphSpaceID) (part : PartitionID)
    (k : Nat) : Prop :=
  env.getLeader k space part = none ∨
    getErrorCode (env.rpcResp k) ≠ ErrorCode.E_LEADER_CHANGED

instance (env : ChainEnv) (space : GraphSpaceID) (part : PartitionID) (k : Nat) :
    Decidable (chainTerminal env space part k) := by
  unfold chainTerminal
  infer_instance

/-- The row-iteration status reported to the snapshot callback
(`SnapshotStatus`): the "more data" state (named from the spec; the source
only matches on `DONE` and `FAILED`), the terminal `DONE`, and `FAILED`. -/
inductive SnapshotStatus where
  | MORE
  | DONE
  | FAILED
deriving DecidableEq, Repr

/-- One invocation of the row-iteration callback: the batch of serialized rows
and the cumulative counters it is called with, plus the iteration status. -/
structure ChunkInput where
  data : List String
  totalCount : Int
  totalSize : Int
  status : SnapshotStatus
deriving DecidableEq, Repr

/-- The slice of `RaftPart` that `sendSnapshot` reads: space/partition ids, the
current term, the result of `lastCommittedLogId()` and the local address. -/
structure RaftPart where
  spaceId_ : GraphSpaceID
  partId_ : PartitionID
  term_ : TermID
  lastCommittedLogId : LogID × TermID
  address : HostAddr
deriving DecidableEq, Repr

/-- `raftex::cpp2::SendSnapshotRequest` as filled in by `SnapshotManager::send`
(SnapshotManager.cpp, lines 117-129). -/
structure SendSnapshotRequest where
  space : GraphSpaceID
  part : PartitionID
  term : TermID
  committed_log_id : LogID
  committed_log_term : TermID
  leader_addr : String
  leader_port : Int
  rows : List String
  total_size : Int
  total_count : Int
  done : Bool
deriving DecidableEq, Repr

/-- The request-building part of `SnapshotManager::send` (SnapshotManager.cpp,
lines 105-135); the network hop itself is supplied by the oracle in the
callers. -/
def send (spaceId : GraphSpaceID) (partId : PartitionID) (termId : TermID)
    (committedLogId : LogID) (committedLogTerm : TermID) (localhost : HostAddr)
    (data : List String) (totalSize : Int) (totalCount : Int) (finished : Bool) :
    SendSnapshotRequest :=
  { space := spaceId
    part := partId
    term := termId
    committed_log_id := committedLogId
    committed_log_term := committedLogTerm
    leader_addr := localhost.host
    leader_port := localhost.port
    rows := data
    total_size := totalSize
    total_count := totalCount
    done := finished }

/-- `FLAGS_snapshot_send_retry_times` (SnapshotManager.cpp, line 14): the
per-chunk send budget, default 3. -/
def FLAGS_snapshot_send_retry_times : Nat := 3

/-- The terminal value of a snapshot transfer
(`StatusOr<std::pair<LogID, TermID>>`): the captured committed log position on
success, or a status error. -/
inductive SnapResult where
  | ok (commit : LogID × TermID)
  | error (msg : String)
deriving DecidableEq, Repr

/-- Observable actions of a snapshot transfer, in order.  `chunkIdx` is the
zero-based index of the callback invocation a send/response belongs to and
`attempt` the zero-based retry attempt within that chunk (model bookkeeping);
`respOk` is a received response carrying the given error code, `respException`
a transport-level exception from the send future. -/
inductive SnapEvent where
  | send (chunkIdx : Nat) (attempt : Nat) (dst : HostAddr) (req : SendSnapshotRequest)
  | respOk (chunkIdx : Nat) (code : ErrorCode)
  | respException (chunkIdx : Nat)
  | sleepSec (s : Nat)
  | setValue (r : SnapResult)
deriving DecidableEq, Repr

/-- The per-chunk retry loop of the snapshot callback (SnapshotManager.cpp,
lines 58-99): `int retry = FLAGS_snapshot_send_retry_times; while (retry-- > 0)`
sends the chunk and blocks on the response.  A received response with
`SUCCEEDED` returns true (resolving the promise with the captured commit
position first when this is the terminal chunk); a received response with any
other code resolves the promise with an error and returns false without
retrying; an exception sleeps 1 s and retries; an exhausted budget resolves the
promise with an error and returns false.  The oracle maps the physical send
counter (`sendIdx`) to that send's outcome (`none` = exception).  Returns
(callback return value, events, promise resolutions, next `sendIdx`). -/
def sendChunkLoop (oracle : Nat → Option ErrorCode) (dst : HostAddr)
    (req : SendSnapshotRequest) (commit : LogID × TermID) (isDone : Bool)
    (cIdx : Nat) : Nat → Nat → Nat → Bool × List SnapEvent × List SnapResult × Nat
  | 0, _, sendIdx =>
    (false, [SnapEvent.setValue (SnapResult.error "Send snapshot failed!")],
     [SnapResult.error "Send snapshot failed!"], sendIdx)
  | retry + 1, attempt, sendIdx =>
    match oracle sendIdx with
    | some code =>
      if code = ErrorCode.SUCCEEDED then
        if isDone then
          (true, [SnapEvent.send cIdx attempt dst req, SnapEvent.respOk cIdx code,
                  SnapEvent.setValue (SnapResult.ok commit)],
           [SnapResult.ok commit], sendIdx + 1)
        else
          (true, [SnapEvent.send cIdx attempt dst req, SnapEvent.respOk cIdx code],
           [], sendIdx + 1)
      else
        (false, [SnapEvent.send cIdx attempt dst req, SnapEvent.respOk cIdx code,
                 SnapEvent.setValue (SnapResult.error "Send snapshot failed!")],
         [SnapResult.error "Send snapshot failed!"], sendIdx + 1)
    | none =>
      let r := sendChunkLoop oracle dst req commit isDone cIdx retry (attempt + 1) (sendIdx + 1)
      (r.1,
       SnapEvent.send cIdx attempt dst req :: SnapEvent.respException cIdx ::
         SnapEvent.sleepSec 1 :: r.2.1,
       r.2.2.1, r.2.2.2)

/-- The request built for one chunk: `send(...)` applied to the arguments the
snapshot callback passes (SnapshotManager.cpp, lines 60-70) — the ids, the
captured commit position, the local address, the chunk's rows and counters,
and the terminal flag `status == SnapshotStatus::DONE`. -/
def chunkReq (part : RaftPart) (commit : LogID × TermID) (chunk : ChunkInput) :
    SendSnapshotRequest :=
  send part.spaceId_ part.partId_ part.term_ commit.1 commit.2 part.address
    chunk.data chunk.totalSize chunk.totalCount
    (decide (chunk.status = SnapshotStatus.DONE))

/-- The row-iteration callback of `sendSnapshot` (SnapshotManager.cpp, lines
49-100): a `FAILED` status resolves the promise with an error and returns false
before anything is sent; otherwise the chunk is sent through the retry loop
with the terminal flag set iff the status is `DONE`. -/
def snapshotCallback (part : RaftPart) (dst : HostAddr) (commit : LogID × TermID)
    (oracle : Nat → Option ErrorCode) (chunk : ChunkInput) (cIdx : Nat) (sendIdx : Nat) :
    Bool × List SnapEvent × List SnapResult × Nat :=
  if chunk.status = SnapshotStatus.FAILED then
    (false, [SnapEvent.setValue (SnapResult.error "Send snapshot failed!")],
     [SnapResult.error "Send snapshot failed!"], sendIdx)
  else
    sendChunkLoop oracle dst (chunkReq part commit chunk)
      commit (decide (chunk.status = SnapshotStatus.DONE)) cIdx
      FLAGS_snapshot_send_retry_times 0 sendIdx

/-- Modelled from the spec: `accessAllRowsInSnapshot` (a collaborator whose
implementation is outside the excerpt) drives the push-style callback over the
iteration script one invocation at a time and stops as soon as the callback
returns false.  `cIdx`/`sendIdx` thread the model's invocation counter and
physical send counter. -/
def accessAllRowsInSnapshot
    (cb : ChunkInput → Nat → Nat → Bool × List SnapEvent × List SnapResult × Nat) :
    List ChunkInput → Nat → Nat → List SnapEvent × List SnapResult
  | [], _, _ => ([], [])
  | c :: rest, cIdx, sendIdx =>
    let r := cb c cIdx sendIdx
    if r.1 then
      let r2 := accessAllRowsInSnapshot cb rest (cIdx + 1) r.2.2.2
      (r.2.1 ++ r2.1, r.2.2.1 ++ r2.2)
    else
      (r.2.1, r.2.2.1)

/-- Shallow embedding of `SnapshotManager::sendSnapshot` (SnapshotManager.cpp,
lines 29-103): capture `lastCommittedLogId()` once before iteration begins,
then drive the row-iteration callback over the script.  Returns the event
trace and the list of resolutions of the result promise. -/
def sendSnapshot (part : RaftPart) (dst : HostAddr) (chunks : List ChunkInput)
    (oracle : Nat → Option ErrorCode) : List SnapEvent × List SnapResult :=
  accessAllRowsInSnapshot
    (snapshotCallback part dst part.lastCommittedLogId oracle) chunks 0 0

/-- Number of network sends in a snapshot trace. -/
def snapSendCount : List SnapEvent → Nat
  | [] => 0
  | SnapEvent.send _ _ _ _ :: r => snapSendCount r + 1
  | _ :: r => snapSendCount r

/-- The chunk indices of the sends of a snapshot trace, in order. -/
def snapSendChunkIdxs : List SnapEvent → List Nat
  | [] => []
  | SnapEvent.send c _ _ _ :: r => c :: snapSendChunkIdxs r
  | _ :: r => snapSendChunkIdxs r

/-- Number of 1 s retry sleeps in a snapshot trace. -/
def snapSleepCount : List SnapEvent → Nat
  | [] => 0
  | SnapEvent.sleepSec _ :: r => snapSleepCount r + 1
  | _ :: r => snapSleepCount r

/-- One-in-flight scan: walks a snapshot trace tracking whether a send is
outstanding; a send while one is outstanding, or a response while none is,
fails (`none`).  `some b` returns the final in-flight state. -/
def flightScan : Bool → List SnapEvent → Option Bool
  | b, [] => some b
  | b, SnapEvent.send _ _ _ _ :: r => if b then none else flightScan true r
  | b, SnapEvent.respOk _ _ :: r => if b then flightScan false r else none
  | b, SnapEvent.respException _ :: r => if b then flightScan false r else none
  | b, SnapEvent.sleepSec _ :: r => flightScan b r
  | b, SnapEvent.setValue _ :: r => flightScan b r

/-- A concrete partition handle used by witnesses. -/
def snapPart0 : RaftPart := ⟨1, 2, 7, (10, 6), ⟨"me", 100⟩⟩

/-- A concrete destination used by witnesses. -/
def snapDst0 : HostAddr := ⟨"peer", 200⟩

/-- A concrete two-chunk iteration script (one MORE chunk, one DONE chunk)
used by witnesses. -/
def snapChunksMD : List ChunkInput :=
  [⟨["r1"], 1, 8, SnapshotStatus.MORE⟩, ⟨["r2"], 2, 16, SnapshotStatus.DONE⟩]

/-- A transport oracle acknowledging every send with `SUCCEEDED`, used by
witnesses. -/
def oracleOk : Nat → Option ErrorCode := fun _ => some ErrorCode.SUCCEEDED

/-- The concrete environment used by the C2 witness: the leader of attempt `k`
is host "h" with port `10 * k` (so each retry resolves a genuinely different
address), and the peer answers leader-changed twice and then ok. -/
def c2WitnessEnv : ChainEnv :=
  { getLeader := fun k _ _ => some ⟨"h", 10 * k⟩
    rpcResp := fun k =>
      if k < 2 then some ⟨StatusCode.kLeaderChanged, ⟨[]⟩⟩
      else some ⟨StatusCode.kOk, ⟨[]⟩⟩ }

end Nebula

namespace Nebula

/-- C1: the shared error-code extraction helper `getErrorCode` returns
`E_RPC_FAILURE` when the transport produced no value; otherwise, for a non-ok
embedded status it returns `E_LEADER_CHANGED` exactly when the status code is
"leader changed" and `E_UNKNOWN` for every other non-ok code; otherwise (ok
status) it returns the code of the first entry of the failed-parts list when
that list is non-empty, and `SUCCEEDED` when it is empty. -/
theorem C1_getErrorCode_cases :
    (getErrorCode none = ErrorCode.E_RPC_FAILURE) ∧
    (∀ st : StatusOrResponse, st.statusCode ≠ StatusCode.kOk →
      getErrorCode (some st) =
        (if st.statusCode = StatusCode.kLeaderChanged then ErrorCode.E_LEADER_CHANGED
         else ErrorCode.E_UNKNOWN)) ∧
    (∀ st : StatusOrResponse, st.statusCode = StatusCode.kOk →
      getErrorCode (some st) =
        (match st.respValue.failed_parts with
         | [] => ErrorCode.SUCCEEDED
         | p :: _ => p.code)) := by
  refine ⟨rfl, ?_, ?_⟩
  · intro st hne
    cases hsc : st.statusCode with
    | kOk => exact absurd hsc hne
    | kLeaderChanged => simp [getErrorCode, hsc]
    | kOther n => simp [getErrorCode, hsc]
  · intro st hok
    simp [getErrorCode, hok]

/-- Helper: the retry-script behavior of `chainUpdateEdge`.  If the leader
lookup succeeds at every attempt `s..s+N` (with per-attempt answers `L`), the
RPC extraction yields `E_LEADER_CHANGED` at attempts `s..s+N-1` and `SUCCEEDED`
at attempt `s+N`, then the trace performs `N+1` lookups, `N+1` sends (attempt
`k`'s send going to the attempt-`k` leader answer plus the internal port
offset), `N` backoff sleeps, and exactly the resolution `[SUCCEEDED]`. -/
theorem chainUpdateEdge_retry_script (env : ChainEnv) (req : UpdateEdgeRequest)
    (t : TermID) (v : Option Int) (L : Nat → HostAddr) :
    ∀ N s fuel evb, N < fuel →
    (∀ k, k ≤ N → env.getLeader (s + k) req.space_id req.part_id = some (L (s + k))) →
    (∀ k, k < N → getErrorCode (env.rpcResp (s + k)) = ErrorCode.E_LEADER_CHANGED) →
    getErrorCode (env.rpcResp (s + N)) = ErrorCode.SUCCEEDED →
    sendDests (chainUpdateEdge env req t v evb fuel s) =
      (List.range (N + 1)).map
        (fun k => { L (s + k) with port := (L (s + k)).port + kInternalPortOffset }) ∧
    lookupCount (chainUpdateEdge env req t v evb fuel s) = N + 1 ∧
    sendCount (chainUpdateEdge env req t v evb fuel s) = N + 1 ∧
    sleepCount (chainUpdateEdge env req t v evb fuel s) = N ∧
    sleepDurations (chainUpdateEdge env req t v evb fuel s) = List.replicate N 500 ∧
    promiseSets (chainUpdateEdge env req t v evb fuel s) = [ErrorCode.SUCCEEDED] := by
  intro N
  induction N with
  | zero =>
    intro s fuel evb hfuel hL hlc hsucc
    obtain ⟨f, rfl⟩ : ∃ f, fuel = f + 1 := ⟨fuel - 1, by omega⟩
    have h0 := hL 0 (Nat.le_refl 0)
    simp only [Nat.add_zero] at h0 hsucc
    simp [chainUpdateEdge, h0, hsucc, sendDests, lookupCount, sendCount, sleepCount,
      promiseSets, sleepDurations, List.range_succ, List.range_zero]
  | succ N ih =>
    intro s fuel evb hfuel hL hlc hsucc
    obtain ⟨f, rfl⟩ : ∃ f, fuel = f + 1 := ⟨fuel - 1, by omega⟩
    have h0 := hL 0 (Nat.zero_le _)
    have hc0 := hlc 0 (Nat.succ_pos N)
    simp only [Nat.add_zero] at h0 hc0
    have hshift : ∀ k, s + (k + 1) = s + 1 + k := fun k => by omega
    obtain ⟨ihd, ihl, ihn, ihslp, ihdur, ihp⟩ := ih (s + 1) f none (by omega)
      (fun k hk => by have := hL (k + 1) (by omega); rwa [hshift k] at this)
      (fun k hk => by have := hlc (k + 1) (by omega); rwa [hshift k] at this)
      (by rw [← hshift N]; exact hsucc)
    have hrange : (List.range (N + 1 + 1)).map
        (fun k => { L (s + k) with port := (L (s + k)).port + kInternalPortOffset }) =
        { L s with port := (L s).port + kInternalPortOffset } ::
          (List.range (N + 1)).map
            (fun k => { L (s + 1 + k) with
                        port := (L (s + 1 + k)).port + kInternalPortOffset }) := by
      rw [List.range_succ_eq_map, List.map_cons, List.map_map]
      refine congrArg₂ _ (by simp) (List.map_congr_left ?_)
      intro a _
      simp only [Function.comp_apply, Nat.succ_eq_add_one, hshift a]
    rw [hrange]
    simp only [chainUpdateEdge, h0, hc0, if_pos rfl]
    exact ⟨by simp [sendDests, ihd], by simp [lookupCount, ihl],
      by simp [sendCount, ihn], by simp [sleepCount, ihslp],
      by simp [sleepDurations, ihdur, List.replicate_succ],
      by simp [promiseSets, ihp]⟩

/-- Helper: the retry-script behavior of `chainAddEdges`, analogous to
`chainUpdateEdge_retry_script`; the lookup key is the first partition id of the
request's parts map. -/
theorem chainAddEdges_retry_script (env : ChainEnv) (req : AddEdgesRequest)
    (t : TermID) (v : Option Int) (L : Nat → HostAddr)
    (p0 : PartitionID) (b : String) (ps : List (PartitionID × String))
    (hparts : req.parts = (p0, b) :: ps) :
    ∀ N s fuel evb, N < fuel →
    (∀ k, k ≤ N → env.getLeader (s + k) req.space_id p0 = some (L (s + k))) →
    (∀ k, k < N → getErrorCode (env.rpcResp (s + k)) = ErrorCode.E_LEADER_CHANGED) →
    getErrorCode (env.rpcResp (s + N)) = ErrorCode.SUCCEEDED →
    sendDests (chainAddEdges env req t v evb fuel s) =
      (List.range (N + 1)).map
        (fun k => { L (s + k) with port := (L (s + k)).port + kInternalPortOffset }) ∧
    lookupCount (chainAddEdges env req t v evb fuel s) = N + 1 ∧
    sendCount (chainAddEdges env req t v evb fuel s) = N + 1 ∧
    sleepCount (chainAddEdges env req t v evb fuel s) = N ∧
    sleepDurations (chainAddEdges env req t v evb fuel s) = List.replicate N 500 ∧
    promiseSets (chainAddEdges env req t v evb fuel s) = [ErrorCode.SUCCEEDED] := by
  intro N
  induction N with
  | zero =>
    intro s fuel evb hfuel hL hlc hsucc
    obtain ⟨f, rfl⟩ : ∃ f, fuel = f + 1 := ⟨fuel - 1, by omega⟩
    have h0 := hL 0 (Nat.le_refl 0)
    simp only [Nat.add_zero] at h0 hsucc
    simp [chainAddEdges, hparts, h0, hsucc, sendDests, lookupCount, sendCount,
      sleepCount, sleepDurations, promiseSets, List.range_succ, List.range_zero]
  | succ N ih =>
    intro s fuel evb hfuel hL hlc hsucc
    obtain ⟨f, rfl⟩ : ∃ f, fuel = f + 1 := ⟨fuel - 1, by omega⟩
    have h0 := hL 0 (Nat.zero_le _)
    have hc0 := hlc 0 (Nat.succ_pos N)
    simp only [Nat.add_zero] at h0 hc0
    have hshift : ∀ k, s + (k + 1) = s + 1 + k := fun k => by omega
    obtain ⟨ihd, ihl, ihn, ihslp, ihdur, ihp⟩ := ih (s + 1) f none (by omega)
      (fun k hk => by have := hL (k + 1) (by omega); rwa [hshift k] at this)
      (fun k hk => by have := hlc (k + 1) (by omega); rwa [hshift k] at this)
      (by rw [← hshift N]; exact hsucc)
    have hrange : (List.range (N + 1 + 1)).map
        (fun k => { L (s + k) with port := (L (s + k)).port + kInternalPortOffset }) =
        { L s with port := (L s).port + kInternalPortOffset } ::
          (List.range (N + 1)).map
            (fun k => { L (s + 1 + k) with
                        port := (L (s + 1 + k)).port + kInternalPortOffset }) := by
      rw [List.range_succ_eq_map, List.map_cons, List.map_map]
      refine congrArg₂ _ (by simp) (List.map_congr_left ?_)
      intro a _
      simp only [Function.comp_apply, Nat.succ_eq_add_one, hshift a]
    rw [hrange]
    simp only [chainAddEdges, hparts, h0, hc0, if_pos rfl]
    exact ⟨by simp [sendDests, ihd], by simp [lookupCount, ihl],
      by simp [sendCount, ihn], by simp [sleepCount, ihslp],
      by simp [sleepDurations, ihdur, List.replicate_succ],
      by simp [promiseSets, ihp]⟩

/-- Helper: the retry-script behavior of `chainDeleteEdges`, analogous to
`chainUpdateEdge_retry_script`; the lookup key is the first partition id of the
request's parts map. -/
theorem chainDeleteEdges_retry_script (env : ChainEnv) (req : DeleteEdgesRequest)
    (txnId : String) (t : TermID) (L : Nat → HostAddr)
    (p0 : PartitionID) (b : String) (ps : List (PartitionID × String))
    (hparts : req.parts = (p0, b) :: ps) :
    ∀ N s fuel evb, N < fuel →
    (∀ k, k ≤ N → env.getLeader (s + k) req.space_id p0 = some (L (s + k))) →
    (∀ k, k < N → getErrorCode (env.rpcResp (s + k)) = ErrorCode.E_LEADER_CHANGED) →
    getErrorCode (env.rpcResp (s + N)) = ErrorCode.SUCCEEDED →
    sendDests (chainDeleteEdges env req txnId t evb fuel s) =
      (List.range (N + 1)).map
        (fun k => { L (s + k) with port := (L (s + k)).port + kInternalPortOffset }) ∧
    lookupCount (chainDeleteEdges env req txnId t evb fuel s) = N + 1 ∧
    sendCount (chainDeleteEdges env req txnId t evb fuel s) = N + 1 ∧
    sleepCount (chainDeleteEdges env req txnId t evb fuel s) = N ∧
    sleepDurations (chainDeleteEdges env req txnId t evb fuel s) = List.replicate N 500 ∧
    promiseSets (chainDeleteEdges env req txnId t evb fuel s) = [ErrorCode.SUCCEEDED] := by
  intro N
  induction N with
  | zero =>
    intro s fuel evb hfuel hL hlc hsucc
    obtain ⟨f, rfl⟩ : ∃ f, fuel = f + 1 := ⟨fuel - 1, by omega⟩
    have h0 := hL 0 (Nat.le_refl 0)
    simp only [Nat.add_zero] at h0 hsucc
    simp [chainDeleteEdges, hparts, h0, hsucc, sendDests, lookupCount, sendCount,
      sleepCount, sleepDurations, promiseSets, List.range_succ, List.range_zero]
  | succ N ih =>
    intro s fuel evb hfuel hL hlc hsucc
    obtain ⟨f, rfl⟩ : ∃ f, fuel = f + 1 := ⟨fuel - 1, by omega⟩
    have h0 := hL 0 (Nat.zero_le _)
    have hc0 := hlc 0 (Nat.succ_pos N)
    simp only [Nat.add_zero] at h0 hc0
    have hshift : ∀ k, s + (k + 1) = s + 1 + k := fun k => by omega
    obtain ⟨ihd, ihl, ihn, ihslp, ihdur, ihp⟩ := ih (s + 1) f none (by omega)
      (fun k hk => by have := hL (k + 1) (by omega); rwa [hshift k] at this)
      (fun k hk => by have := hlc (k + 1) (by omega); rwa [hshift k] at this)
      (by rw [← hshift N]; exact hsucc)
    have hrange : (List.range (N + 1 + 1)).map
        (fun k => { L (s + k) with port := (L (s + k)).port + kInternalPortOffset }) =
        { L s with port := (L s).port + kInternalPortOffset } ::
          (List.range (N + 1)).map
            (fun k => { L (s + 1 + k) with
                        port := (L (s + 1 + k)).port + kInternalPortOffset }) := by
      rw [List.range_succ_eq_map, List.map_cons, List.map_map]
      refine congrArg₂ _ (by simp) (List.map_congr_left ?_)
      intro a _
      simp only [Function.comp_apply, Nat.succ_eq_add_one, hshift a]
    rw [hrange]
    simp only [chainDeleteEdges, hparts, h0, hc0, if_pos rfl]
    exact ⟨by simp [sendDests, ihd], by simp [lookupCount, ihl],
      by simp [sendCount, ihn], by simp [sleepCount, ihslp],
      by simp [sleepDurations, ihdur, List.replicate_succ],
      by simp [promiseSets, ihp]⟩

/-- C2: for every chain operation (`chainUpdateEdge`, `chainAddEdges`,
`chainDeleteEdges`), if the peer responds with a leadership-changed status `N`
times and then with success, the client performs exactly `N+1` leader lookups
and exactly `N+1` sends — each retry restarting the whole operation from a
fresh leader resolution (attempt `k`'s send goes to the address resolved at
attempt `k`, so the previously resolved address is discarded) after a fixed
500 ms backoff — and the promise finally resolves with success. -/
theorem C2_leader_changed_retry_until_success :
    (∀ (env : ChainEnv) (req : UpdateEdgeRequest) (t : TermID) (v : Option Int)
        (evb : EventBase) (L : Nat → HostAddr) (R : Nat → StatusOrResponse) (N fuel : Nat),
      N < fuel →
      (∀ k, k ≤ N → env.getLeader k req.space_id req.part_id = some (L k)) →
      (∀ k, k ≤ N → env.rpcResp k = some (R k)) →
      (∀ k, k < N → (R k).statusCode = StatusCode.kLeaderChanged) →
      (R N).statusCode = StatusCode.kOk →
      (R N).respValue.failed_parts = [] →
      lookupCount (chainUpdateEdge env req t v evb fuel 0) = N + 1 ∧
      sendCount (chainUpdateEdge env req t v evb fuel 0) = N + 1 ∧
      sendDests (chainUpdateEdge env req t v evb fuel 0) =
        (List.range (N + 1)).map
          (fun k => { L k with port := (L k).port + kInternalPortOffset }) ∧
      sleepDurations (chainUpdateEdge env req t v evb fuel 0) = List.replicate N 500 ∧
      promiseSets (chainUpdateEdge env req t v evb fuel 0) = [ErrorCode.SUCCEEDED]) ∧
    (∀ (env : ChainEnv) (req : AddEdgesRequest) (t : TermID) (v : Option Int)
        (evb : EventBase) (L : Nat → HostAddr) (R : Nat → StatusOrResponse)
        (N fuel p0 : Nat) (b : String) (ps : List (PartitionID × String)),
      N < fuel →
      req.parts = (p0, b) :: ps →
      (∀ k, k ≤ N → env.getLeader k req.space_id p0 = some (L k)) →
      (∀ k, k ≤ N → env.rpcResp k = some (R k)) →
      (∀ k, k < N → (R k).statusCode = StatusCode.kLeaderChanged) →
      (R N).statusCode = StatusCode.kOk →
      (R N).respValue.failed_parts = [] →
      lookupCount (chainAddEdges env req t v evb fuel 0) = N + 1 ∧
      sendCount (chainAddEdges env req t v evb fuel 0) = N + 1 ∧
      sendDests (chainAddEdges env req t v evb fuel 0) =
        (List.range (N + 1)).map
          (fun k => { L k with port := (L k).port + kInternalPortOffset }) ∧
      sleepDurations (chainAddEdges env req t v evb fuel 0) = List.replicate N 500 ∧
      promiseSets (chainAddEdges env req t v evb fuel 0) = [ErrorCode.SUCCEEDED]) ∧
    (∀ (env : ChainEnv) (req : DeleteEdgesRequest) (txnId : String) (t : TermID)
        (evb : EventBase) (L : Nat → HostAddr) (R : Nat → StatusOrResponse)
        (N fuel p0 : Nat) (b : String) (ps : List (PartitionID × String)),
      N < fuel →
      req.parts = (p0, b) :: ps →
      (∀ k, k ≤ N → env.getLeader k req.space_id p0 = some (L k)) →
      (∀ k, k ≤ N → env.rpcResp k = some (R k)) →
      (∀ k, k < N → (R k).statusCode = StatusCode.kLeaderChanged) →
      (R N).statusCode = StatusCode.kOk →
      (R N).respValue.failed_parts = [] →
      lookupCount (chainDeleteEdges env req txnId t evb fuel 0) = N + 1 ∧
      sendCount (chainDeleteEdges env req txnId t evb fuel 0) = N + 1 ∧
      sendDests (chainDeleteEdges env req txnId t evb fuel 0) =
        (List.range (N + 1)).map
          (fun k => { L k with port := (L k).port + kInternalPortOffset }) ∧
      sleepDurations (chainDeleteEdges env req txnId t evb fuel 0) = List.replicate N 500 ∧
      promiseSets (chainDeleteEdges env req txnId t evb fuel 0) = [ErrorCode.SUCCEEDED]) := by
  refine ⟨?_, ?_, ?_⟩
  · intro env req t v evb L R N fuel hfuel hL hR hlc hok hfp
    obtain ⟨hd, hl, hn, hslp, hdur, hp⟩ :=
      chainUpdateEdge_retry_script env req t v L N 0 fuel evb hfuel
        (fun k hk => by simpa using hL k hk)
        (fun k hk => by
          have hr := hR k (Nat.le_of_lt hk)
          have hs := hlc k hk
          simp [getErrorCode, hr, hs])
        (by
          have hr := hR N (Nat.le_refl N)
          simp [getErrorCode, hr, hok, hfp])
    simp only [Nat.zero_add] at hd hl hn hslp hdur hp
    exact ⟨hl, hn, hd, hdur, hp⟩
  · intro env req t v evb L R N fuel p0 b ps hfuel hparts hL hR hlc hok hfp
    obtain ⟨hd, hl, hn, hslp, hdur, hp⟩ :=
      chainAddEdges_retry_script env req t v L p0 b ps hparts N 0 fuel evb hfuel
        (fun k hk => by simpa using hL k hk)
        (fun k hk => by
          have hr := hR k (Nat.le_of_lt hk)
          have hs := hlc k hk
          simp [getErrorCode, hr, hs])
        (by
          have hr := hR N (Nat.le_refl N)
          simp [getErrorCode, hr, hok, hfp])
    simp only [Nat.zero_add] at hd hl hn hslp hdur hp
    exact ⟨hl, hn, hd, hdur, hp⟩
  · intro env req txnId t evb L R N fuel p0 b ps hfuel hparts hL hR hlc hok hfp
    obtain ⟨hd, hl, hn, hslp, hdur, hp⟩ :=
      chainDeleteEdges_retry_script env req txnId t L p0 b ps hparts N 0 fuel evb hfuel
        (fun k hk => by simpa using hL k hk)
        (fun k hk => by
          have hr := hR k (Nat.le_of_lt hk)
          have hs := hlc k hk
          simp [getErrorCode, hr, hs])
        (by
          have hr := hR N (Nat.le_refl N)
          simp [getErrorCode, hr, hok, hfp])
    simp only [Nat.zero_add] at hd hl hn hslp hdur hp
    exact ⟨hl, hn, hd, hdur, hp⟩

/-- Witness for C2: two leader-changed answers then success, at concrete
requests, for each of the three operations. -/
theorem C2_leader_changed_retry_until_success_witness :
    (lookupCount (chainUpdateEdge c2WitnessEnv ⟨1, 2, "e"⟩ 5 none (some 9) 3 0) = 3 ∧
     sendCount (chainUpdateEdge c2WitnessEnv ⟨1, 2, "e"⟩ 5 none (some 9) 3 0) = 3 ∧
     sendDests (chainUpdateEdge c2WitnessEnv ⟨1, 2, "e"⟩ 5 none (some 9) 3 0) =
       [⟨"h", 1⟩, ⟨"h", 11⟩, ⟨"h", 21⟩] ∧
     sleepDurations (chainUpdateEdge c2WitnessEnv ⟨1, 2, "e"⟩ 5 none (some 9) 3 0) =
       [500, 500] ∧
     promiseSets (chainUpdateEdge c2WitnessEnv ⟨1, 2, "e"⟩ 5 none (some 9) 3 0) =
       [ErrorCode.SUCCEEDED]) ∧
    promiseSets (chainAddEdges c2WitnessEnv ⟨1, [(2, "b")], [], false⟩ 5 none none 3 0) =
      [ErrorCode.SUCCEEDED] ∧
    promiseSets (chainDeleteEdges c2WitnessEnv ⟨1, [(2, "b")]⟩ "tx" 5 none 3 0) =
      [ErrorCode.SUCCEEDED] := by
  have hlc : ∀ k, k < 2 →
      ((fun k => if k < 2 then (⟨StatusCode.kLeaderChanged, ⟨[]⟩⟩ : StatusOrResponse)
        else ⟨StatusCode.kOk, ⟨[]⟩⟩) k).statusCode = StatusCode.kLeaderChanged := by
    decide
  refine ⟨?_, ?_, ?_⟩
  · have h := C2_leader_changed_retry_until_success.1 c2WitnessEnv ⟨1, 2, "e"⟩ 5 none
      (some 9) (fun k => ⟨"h", 10 * k⟩)
      (fun k => if k < 2 then ⟨StatusCode.kLeaderChanged, ⟨[]⟩⟩ else ⟨StatusCode.kOk, ⟨[]⟩⟩)
      2 3 (by decide) (fun k _ => rfl)
      (fun k hk => by
        simp only [c2WitnessEnv]
        split <;> rfl)
      hlc (by decide) (by decide)
    refine ⟨h.1, h.2.1, ?_, h.2.2.2.1, h.2.2.2.2⟩
    · rw [h.2.2.1]; decide
  · exact (C2_leader_changed_retry_until_success.2.1 c2WitnessEnv
      ⟨1, [(2, "b")], [], false⟩ 5 none none (fun k => ⟨"h", 10 * k⟩)
      (fun k => if k < 2 then ⟨StatusCode.kLeaderChanged, ⟨[]⟩⟩ else ⟨StatusCode.kOk, ⟨[]⟩⟩)
      2 3 2 "b" [] (by decide) rfl (fun k _ => rfl)
      (fun k hk => by
        simp only [c2WitnessEnv]
        split <;> rfl)
      hlc (by decide) (by decide)).2.2.2.2
  · exact (C2_leader_changed_retry_until_success.2.2 c2WitnessEnv
      ⟨1, [(2, "b")]⟩ "tx" 5 none (fun k => ⟨"h", 10 * k⟩)
      (fun k => if k < 2 then ⟨StatusCode.kLeaderChanged, ⟨[]⟩⟩ else ⟨StatusCode.kOk, ⟨[]⟩⟩)
      2 3 2 "b" [] (by decide) rfl (fun k _ => rfl)
      (fun k hk => by
        simp only [c2WitnessEnv]
        split <;> rfl)
      hlc (by decide) (by decide)).2.2.2.2

/-- C3: for each of `chainUpdateEdge`, `chainAddEdges` and `chainDeleteEdges`,
whenever the leader lookup `getLeader(space, part)` fails, the operation
resolves its promise immediately with `E_SPACE_NOT_FOUND`, performs no network
send, and does not retry the lookup (the whole trace is that one failed lookup
followed by the one promise resolution). -/
theorem C3_lookup_failure_terminal :
    (∀ (env : ChainEnv) (req : UpdateEdgeRequest) (t : TermID) (v : Option Int)
        (evb : EventBase) (fuel : Nat), 0 < fuel →
      env.getLeader 0 req.space_id req.part_id = none →
      chainUpdateEdge env req t v evb fuel 0 =
        [ChainEvent.getLeaderCall req.space_id req.part_id false,
         ChainEvent.setPromise ErrorCode.E_SPACE_NOT_FOUND] ∧
      sendCount (chainUpdateEdge env req t v evb fuel 0) = 0 ∧
      lookupCount (chainUpdateEdge env req t v evb fuel 0) = 1 ∧
      promiseSets (chainUpdateEdge env req t v evb fuel 0) = [ErrorCode.E_SPACE_NOT_FOUND]) ∧
    (∀ (env : ChainEnv) (req : AddEdgesRequest) (t : TermID) (v : Option Int)
        (evb : EventBase) (fuel p0 b ps : _), 0 < fuel →
      req.parts = (p0, b) :: ps →
      env.getLeader 0 req.space_id p0 = none →
      chainAddEdges env req t v evb fuel 0 =
        [ChainEvent.getLeaderCall req.space_id p0 false,
         ChainEvent.setPromise ErrorCode.E_SPACE_NOT_FOUND] ∧
      sendCount (chainAddEdges env req t v evb fuel 0) = 0 ∧
      lookupCount (chainAddEdges env req t v evb fuel 0) = 1 ∧
      promiseSets (chainAddEdges env req t v evb fuel 0) = [ErrorCode.E_SPACE_NOT_FOUND]) ∧
    (∀ (env : ChainEnv) (req : DeleteEdgesRequest) (txnId : String) (t : TermID)
        (evb : EventBase) (fuel p0 b ps : _), 0 < fuel →
      req.parts = (p0, b) :: ps →
      env.getLeader 0 req.space_id p0 = none →
      chainDeleteEdges env req txnId t evb fuel 0 =
        [ChainEvent.getLeaderCall req.space_id p0 false,
         ChainEvent.setPromise ErrorCode.E_SPACE_NOT_FOUND] ∧
      sendCount (chainDeleteEdges env req txnId t evb fuel 0) = 0 ∧
      lookupCount (chainDeleteEdges env req txnId t evb fuel 0) = 1 ∧
      promiseSets (chainDeleteEdges env req txnId t evb fuel 0) = [ErrorCode.E_SPACE_NOT_FOUND]) := by
  refine ⟨?_, ?_, ?_⟩
  · intro env req t v evb fuel hfuel hlk
    obtain ⟨f, rfl⟩ : ∃ f, fuel = f + 1 := ⟨fuel - 1, by omega⟩
    have htr : chainUpdateEdge env req t v evb (f + 1) 0 =
        [ChainEvent.getLeaderCall req.space_id req.part_id false,
         ChainEvent.setPromise ErrorCode.E_SPACE_NOT_FOUND] := by
      simp [chainUpdateEdge, hlk]
    refine ⟨htr, ?_, ?_, ?_⟩ <;>
      simp [htr, sendCount, lookupCount, promiseSets]
  · intro env req t v evb fuel p0 b ps hfuel hparts hlk
    obtain ⟨f, rfl⟩ : ∃ f, fuel = f + 1 := ⟨fuel - 1, by omega⟩
    have htr : chainAddEdges env req t v evb (f + 1) 0 =
        [ChainEvent.getLeaderCall req.space_id p0 false,
         ChainEvent.setPromise ErrorCode.E_SPACE_NOT_FOUND] := by
      simp [chainAddEdges, hparts, hlk]
    refine ⟨htr, ?_, ?_, ?_⟩ <;>
      simp [htr, sendCount, lookupCount, promiseSets]
  · intro env req txnId t evb fuel p0 b ps hfuel hparts hlk
    obtain ⟨f, rfl⟩ : ∃ f, fuel = f + 1 := ⟨fuel - 1, by omega⟩
    have htr : chainDeleteEdges env req txnId t evb (f + 1) 0 =
        [ChainEvent.getLeaderCall req.space_id p0 false,
         ChainEvent.setPromise ErrorCode.E_SPACE_NOT_FOUND] := by
      simp [chainDeleteEdges, hparts, hlk]
    refine ⟨htr, ?_, ?_, ?_⟩ <;>
      simp [htr, sendCount, lookupCount, promiseSets]

/-- Witness for C3: a concrete environment whose leader lookup fails. -/
theorem C3_lookup_failure_terminal_witness :
    promiseSets (chainUpdateEdge ⟨fun _ _ _ => none, fun _ => none⟩
        ⟨1, 2, "e"⟩ 5 none none 1 0) = [ErrorCode.E_SPACE_NOT_FOUND] ∧
    sendCount (chainAddEdges ⟨fun _ _ _ => none, fun _ => none⟩
        ⟨1, [(2, "b")], [], false⟩ 5 none none 1 0) = 0 ∧
    lookupCount (chainDeleteEdges ⟨fun _ _ _ => none, fun _ => none⟩
        ⟨1, [(2, "b")]⟩ "tx" 5 none 1 0) = 1 := by
  refine ⟨?_, ?_, ?_⟩
  · exact (C3_lookup_failure_terminal.1 ⟨fun _ _ _ => none, fun _ => none⟩
      ⟨1, 2, "e"⟩ 5 none none 1 (by decide) rfl).2.2.2
  · exact (C3_lookup_failure_terminal.2.1 ⟨fun _ _ _ => none, fun _ => none⟩
      ⟨1, [(2, "b")], [], false⟩ 5 none none 1 2 "b" [] (by decide) rfl rfl).2.1
  · exact (C3_lookup_failure_terminal.2.2 ⟨fun _ _ _ => none, fun _ => none⟩
      ⟨1, [(2, "b")]⟩ "tx" 5 none 1 2 "b" [] (by decide) rfl rfl).2.2.1

/-- Helper: a `chainUpdateEdge` invocation whose event-base argument is the
default (`none`) only ever sends with the default event base. -/
theorem chainUpdateEdge_evb_none_all (env : ChainEnv) (req : UpdateEdgeRequest)
    (t : TermID) (v : Option Int) :
    ∀ fuel s, (sendEvbs (chainUpdateEdge env req t v none fuel s)).all Option.isNone = true := by
  intro fuel
  induction fuel with
  | zero => intro s; simp [chainUpdateEdge, sendEvbs]
  | succ f ih =>
    intro s
    cases hl : env.getLeader s req.space_id req.part_id with
    | none => simp [chainUpdateEdge, hl, sendEvbs]
    | some a =>
      by_cases hc : getErrorCode (env.rpcResp s) = ErrorCode.E_LEADER_CHANGED
      · simp [chainUpdateEdge, hl, hc, sendEvbs, ih]
      · simp [chainUpdateEdge, hl, hc, sendEvbs]

/-- Helper: a `chainAddEdges` invocation whose event-base argument is the
default (`none`) only ever sends with the default event base. -/
theorem chainAddEdges_evb_none_all (env : ChainEnv) (req : AddEdgesRequest)
    (t : TermID) (v : Option Int) :
    ∀ fuel s, (sendEvbs (chainAddEdges env req t v none fuel s)).all Option.isNone = true := by
  intro fuel
  induction fuel with
  | zero => intro s; simp [chainAddEdges, sendEvbs]
  | succ f ih =>
    intro s
    cases hp : req.parts with
    | nil => simp [chainAddEdges, hp, sendEvbs]
    | cons q qs =>
      cases hl : env.getLeader s req.space_id q.1 with
      | none => simp [chainAddEdges, hp, hl, sendEvbs]
      | some a =>
        by_cases hc : getErrorCode (env.rpcResp s) = ErrorCode.E_LEADER_CHANGED
        · simp [chainAddEdges, hp, hl, hc, sendEvbs, ih]
        · simp [chainAddEdges, hp, hl, hc, sendEvbs]

/-- Helper: a `chainDeleteEdges` invocation whose event-base argument is the
default (`none`) only ever sends with the default event base. -/
theorem chainDeleteEdges_evb_none_all (env : ChainEnv) (req : DeleteEdgesRequest)
    (txnId : String) (t : TermID) :
    ∀ fuel s,
      (sendEvbs (chainDeleteEdges env req txnId t none fuel s)).all Option.isNone = true := by
  intro fuel
  induction fuel with
  | zero => intro s; simp [chainDeleteEdges, sendEvbs]
  | succ f ih =>
    intro s
    cases hp : req.parts with
    | nil => simp [chainDeleteEdges, hp, sendEvbs]
    | cons q qs =>
      cases hl : env.getLeader s req.space_id q.1 with
      | none => simp [chainDeleteEdges, hp, hl, sendEvbs]
      | some a =>
        by_cases hc : getErrorCode (env.rpcResp s) = ErrorCode.E_LEADER_CHANGED
        · simp [chainDeleteEdges, hp, hl, hc, sendEvbs, ih]
        · simp [chainDeleteEdges, hp, hl, hc, sendEvbs]

/-- C10: when a chain operation retries after an `E_LEADER_CHANGED` response,
the recursive re-invocation omits the caller-supplied event base: in any run of
`chainUpdateEdge`, `chainAddEdges` or `chainDeleteEdges`, only the very first
send can carry the caller's event base (and it carries exactly that one), and
every send after the first — i.e. every retried attempt — carries the default
(`none`). -/
theorem C10_retry_omits_event_base :
    (∀ (env : ChainEnv) (req : UpdateEdgeRequest) (t : TermID) (v : Option Int)
        (evb : EventBase) (fuel s : Nat),
      ((sendEvbs (chainUpdateEdge env req t v evb fuel s)).tail.all Option.isNone = true) ∧
      (∀ b, (sendEvbs (chainUpdateEdge env req t v evb fuel s)).head? = some b → b = evb)) ∧
    (∀ (env : ChainEnv) (req : AddEdgesRequest) (t : TermID) (v : Option Int)
        (evb : EventBase) (fuel s : Nat),
      ((sendEvbs (chainAddEdges env req t v evb fuel s)).tail.all Option.isNone = true) ∧
      (∀ b, (sendEvbs (chainAddEdges env req t v evb fuel s)).head? = some b → b = evb)) ∧
    (∀ (env : ChainEnv) (req : DeleteEdgesRequest) (txnId : String) (t : TermID)
        (evb : EventBase) (fuel s : Nat),
      ((sendEvbs (chainDeleteEdges env req txnId t evb fuel s)).tail.all Option.isNone = true) ∧
      (∀ b, (sendEvbs (chainDeleteEdges env req txnId t evb fuel s)).head? = some b → b = evb)) := by
  refine ⟨?_, ?_, ?_⟩
  · intro env req t v evb fuel s
    cases fuel with
    | zero => simp [chainUpdateEdge, sendEvbs]
    | succ f =>
      cases hl : env.getLeader s req.space_id req.part_id with
      | none => simp [chainUpdateEdge, hl, sendEvbs]
      | some a =>
        by_cases hc : getErrorCode (env.rpcResp s) = ErrorCode.E_LEADER_CHANGED
        · constructor
          · simp [chainUpdateEdge, hl, hc, sendEvbs, chainUpdateEdge_evb_none_all]
          · intro b hb
            simp [chainUpdateEdge, hl, hc, sendEvbs] at hb
            exact hb.symm
        · constructor
          · simp [chainUpdateEdge, hl, hc, sendEvbs]
          · intro b hb
            simp [chainUpdateEdge, hl, hc, sendEvbs] at hb
            exact hb.symm
  · intro env req t v evb fuel s
    cases fuel with
    | zero => simp [chainAddEdges, sendEvbs]
    | succ f =>
      cases hp : req.parts with
      | nil => simp [chainAddEdges, hp, sendEvbs]
      | cons q qs =>
        cases hl : env.getLeader s req.space_id q.1 with
        | none => simp [chainAddEdges, hp, hl, sendEvbs]
        | some a =>
          by_cases hc : getErrorCode (env.rpcResp s) = ErrorCode.E_LEADER_CHANGED
          · constructor
            · simp [chainAddEdges, hp, hl, hc, sendEvbs, chainAddEdges_evb_none_all]
            · intro b hb
              simp [chainAddEdges, hp, hl, hc, sendEvbs] at hb
              exact hb.symm
          · constructor
            · simp [chainAddEdges, hp, hl, hc, sendEvbs]
            · intro b hb
              simp [chainAddEdges, hp, hl, hc, sendEvbs] at hb
              exact hb.symm
  · intro env req txnId t evb fuel s
    cases fuel with
    | zero => simp [chainDeleteEdges, sendEvbs]
    | succ f =>
      cases hp : req.parts with
      | nil => simp [chainDeleteEdges, hp, sendEvbs]
      | cons q qs =>
        cases hl : env.getLeader s req.space_id q.1 with
        | none => simp [chainDeleteEdges, hp, hl, sendEvbs]
        | some a =>
          by_cases hc : getErrorCode (env.rpcResp s) = ErrorCode.E_LEADER_CHANGED
          · constructor
            · simp [chainDeleteEdges, hp, hl, hc, sendEvbs, chainDeleteEdges_evb_none_all]
            · intro b hb
              simp [chainDeleteEdges, hp, hl, hc, sendEvbs] at hb
              exact hb.symm
          · constructor
            · simp [chainDeleteEdges, hp, hl, hc, sendEvbs]
            · intro b hb
              simp [chainDeleteEdges, hp, hl, hc, sendEvbs] at hb
              exact hb.symm

/-- Witness for C10: with the environment of the C2 witness (two retries before
success) and a caller-supplied event base, the first send carries it and both
retried sends carry the default. -/
theorem C10_retry_omits_event_base_witness :
    sendEvbs (chainUpdateEdge c2WitnessEnv ⟨1, 2, "e"⟩ 5 none (some 7) 3 0) =
      [some 7, none, none] ∧
    (sendEvbs (chainUpdateEdge c2WitnessEnv ⟨1, 2, "e"⟩ 5 none (some 7) 3 0)).tail.all
      Option.isNone = true ∧
    ∀ b, (sendEvbs (chainAddEdges c2WitnessEnv ⟨1, [(2, "b")], [], false⟩ 5 none
      (some 7) 3 0)).head? = some b → b = some 7 := by
  refine ⟨by decide, ?_, ?_⟩
  · exact (C10_retry_omits_event_base.1 c2WitnessEnv ⟨1, 2, "e"⟩ 5 none (some 7) 3 0).1
  · exact fun b hb =>
      (C10_retry_omits_event_base.2.1 c2WitnessEnv ⟨1, [(2, "b")], [], false⟩ 5 none
        (some 7) 3 0).2 b hb

/-- C9: `chainAddEdges` and `chainDeleteEdges` resolve the peer leader using
only the first partition id of the request's parts map (`parts.begin()->first`):
on an empty parts map the C++ read is undefined (the model stops at the
`ubEmptyParts` marker, so a non-empty map is a precondition), and on a
non-empty map the leader lookup is keyed by the first partition id while the
sent chain request still carries the entire multi-partition batch. -/
theorem C9_first_partition_dispatch :
    (∀ (env : ChainEnv) (req : AddEdgesRequest) (t : TermID) (v : Option Int)
        (evb : EventBase) (fuel s : Nat), 0 < fuel → req.parts = [] →
      chainAddEdges env req t v evb fuel s = [ChainEvent.ubEmptyParts]) ∧
    (∀ (env : ChainEnv) (req : AddEdgesRequest) (t : TermID) (v : Option Int)
        (evb : EventBase) (fuel s p0 : Nat) (b : String)
        (ps : List (PartitionID × String)), 0 < fuel →
      req.parts = (p0, b) :: ps →
      (chainAddEdges env req t v evb fuel s).head? =
        some (ChainEvent.getLeaderCall req.space_id p0
          ((env.getLeader s req.space_id p0).isSome)) ∧
      (∀ a, env.getLeader s req.space_id p0 = some a →
        (chainAddEdges env req t v evb fuel s).take 2 =
          [ChainEvent.getLeaderCall req.space_id p0 true,
           ChainEvent.sendAdd ⟨a.host, a.port + kInternalPortOffset⟩
             (makeChainAddReq req t v) evb]) ∧
      (makeChainAddReq req t v).parts = req.parts) ∧
    (∀ (env : ChainEnv) (req : DeleteEdgesRequest) (txnId : String) (t : TermID)
        (evb : EventBase) (fuel s : Nat), 0 < fuel → req.parts = [] →
      chainDeleteEdges env req txnId t evb fuel s = [ChainEvent.ubEmptyParts]) ∧
    (∀ (env : ChainEnv) (req : DeleteEdgesRequest) (txnId : String) (t : TermID)
        (evb : EventBase) (fuel s p0 : Nat) (b : String)
        (ps : List (PartitionID × String)), 0 < fuel →
      req.parts = (p0, b) :: ps →
      (chainDeleteEdges env req txnId t evb fuel s).head? =
        some (ChainEvent.getLeaderCall req.space_id p0
          ((env.getLeader s req.space_id p0).isSome)) ∧
      (∀ a, env.getLeader s req.space_id p0 = some a →
        (chainDeleteEdges env req txnId t evb fuel s).take 2 =
          [ChainEvent.getLeaderCall req.space_id p0 true,
           ChainEvent.sendDelete ⟨a.host, a.port + kInternalPortOffset⟩
             ⟨req.space_id, req.parts, txnId, t⟩ evb])) := by
  refine ⟨?_, ?_, ?_, ?_⟩
  · intro env req t v evb fuel s hfuel hparts
    obtain ⟨f, rfl⟩ : ∃ f, fuel = f + 1 := ⟨fuel - 1, by omega⟩
    simp [chainAddEdges, hparts]
  · intro env req t v evb fuel s p0 b ps hfuel hparts
    obtain ⟨f, rfl⟩ : ∃ f, fuel = f + 1 := ⟨fuel - 1, by omega⟩
    refine ⟨?_, ?_, rfl⟩
    · cases hl : env.getLeader s req.space_id p0 with
      | none => simp [chainAddEdges, hparts, hl]
      | some a =>
        by_cases hc : getErrorCode (env.rpcResp s) = ErrorCode.E_LEADER_CHANGED <;>
          simp [chainAddEdges, hparts, hl, hc]
    · intro a ha
      by_cases hc : getErrorCode (env.rpcResp s) = ErrorCode.E_LEADER_CHANGED <;>
        simp [chainAddEdges, hparts, ha, hc]
  · intro env req txnId t evb fuel s hfuel hparts
    obtain ⟨f, rfl⟩ : ∃ f, fuel = f + 1 := ⟨fuel - 1, by omega⟩
    simp [chainDeleteEdges, hparts]
  · intro env req txnId t evb fuel s p0 b ps hfuel hparts
    obtain ⟨f, rfl⟩ : ∃ f, fuel = f + 1 := ⟨fuel - 1, by omega⟩
    refine ⟨?_, ?_⟩
    · cases hl : env.getLeader s req.space_id p0 with
      | none => simp [chainDeleteEdges, hparts, hl]
      | some a =>
        by_cases hc : getErrorCode (env.rpcResp s) = ErrorCode.E_LEADER_CHANGED <;>
          simp [chainDeleteEdges, hparts, hl, hc]
    · intro a ha
      by_cases hc : getErrorCode (env.rpcResp s) = ErrorCode.E_LEADER_CHANGED <;>
        simp [chainDeleteEdges, hparts, ha, hc]

/-- Witness for C9: a two-partition batch is dispatched to the leader of its
first partition, carrying both partitions; empty parts hit the undefined-read
marker. -/
theorem C9_first_partition_dispatch_witness :
    chainAddEdges c2WitnessEnv ⟨1, [], [], false⟩ 5 none none 1 0 =
      [ChainEvent.ubEmptyParts] ∧
    (chainAddEdges c2WitnessEnv ⟨1, [(4, "x"), (9, "y")], [], false⟩ 5 none none 3 2).take 2 =
      [ChainEvent.getLeaderCall 1 4 true,
       ChainEvent.sendAdd ⟨"h", 21⟩
         (makeChainAddReq ⟨1, [(4, "x"), (9, "y")], [], false⟩ 5 none) none] ∧
    (chainDeleteEdges c2WitnessEnv ⟨1, [(4, "x"), (9, "y")]⟩ "tx" 5 none 3 2).take 2 =
      [ChainEvent.getLeaderCall 1 4 true,
       ChainEvent.sendDelete ⟨"h", 21⟩ ⟨1, [(4, "x"), (9, "y")], "tx", 5⟩ none] := by
  refine ⟨?_, ?_, ?_⟩
  · exact C9_first_partition_dispatch.1 c2WitnessEnv ⟨1, [], [], false⟩ 5 none none 1 0
      (by decide) rfl
  · exact ((C9_first_partition_dispatch.2.1 c2WitnessEnv ⟨1, [(4, "x"), (9, "y")], [], false⟩
      5 none none 3 2 4 "x" [(9, "y")] (by decide) rfl).2.1 ⟨"h", 20⟩ rfl).trans (by decide)
  · exact ((C9_first_partition_dispatch.2.2.2 c2WitnessEnv ⟨1, [(4, "x"), (9, "y")]⟩
      "tx" 5 none 3 2 4 "x" [(9, "y")] (by decide) rfl).2 ⟨"h", 20⟩ rfl).trans (by decide)

/-- Helper: the resolutions a chunk retry loop performs are determined by its
return value: a loop that returns true resolved `[ok commit]` on a terminal
chunk and nothing otherwise; a loop that returns false resolved exactly one
error. -/
theorem sendChunkLoop_resolutions (oracle : Nat → Option ErrorCode) (dst : HostAddr)
    (req : SendSnapshotRequest) (commit : LogID × TermID) (isDone : Bool) (cIdx : Nat) :
    ∀ retry attempt sendIdx,
      ((sendChunkLoop oracle dst req commit isDone cIdx retry attempt sendIdx).1 = true →
        (sendChunkLoop oracle dst req commit isDone cIdx retry attempt sendIdx).2.2.1 =
          if isDone then [SnapResult.ok commit] else []) ∧
      ((sendChunkLoop oracle dst req commit isDone cIdx retry attempt sendIdx).1 = false →
        (sendChunkLoop oracle dst req commit isDone cIdx retry attempt sendIdx).2.2.1 =
          [SnapResult.error "Send snapshot failed!"]) := by
  intro retry
  induction retry with
  | zero =>
    intro attempt sendIdx
    simp [sendChunkLoop]
  | succ r ih =>
    intro attempt sendIdx
    cases ho : oracle sendIdx with
    | some code =>
      by_cases hsc : code = ErrorCode.SUCCEEDED
      · cases hd : isDone with
        | true => simp [sendChunkLoop, ho, hsc, hd]
        | false => simp [sendChunkLoop, ho, hsc, hd]
      · simp [sendChunkLoop, ho, hsc]
    | none =>
      simp only [sendChunkLoop, ho]
      exact ih (attempt + 1) (sendIdx + 1)

/-- Helper: a chunk retry loop that returns true has received a `SUCCEEDED`
response for its chunk. -/
theorem sendChunkLoop_cont_respOk (oracle : Nat → Option ErrorCode) (dst : HostAddr)
    (req : SendSnapshotRequest) (commit : LogID × TermID) (isDone : Bool) (cIdx : Nat) :
    ∀ retry attempt sendIdx,
      (sendChunkLoop oracle dst req commit isDone cIdx retry attempt sendIdx).1 = true →
      SnapEvent.respOk cIdx ErrorCode.SUCCEEDED ∈
        (sendChunkLoop oracle dst req commit isDone cIdx retry attempt sendIdx).2.1 := by
  intro retry
  induction retry with
  | zero => intro attempt sendIdx; simp [sendChunkLoop]
  | succ r ih =>
    intro attempt sendIdx
    cases ho : oracle sendIdx with
    | some code =>
      by_cases hsc : code = ErrorCode.SUCCEEDED
      · cases hd : isDone with
        | true => simp [sendChunkLoop, ho, hsc, hd]
        | false => simp [sendChunkLoop, ho, hsc, hd]
      · simp [sendChunkLoop, ho, hsc]
    | none =>
      simp only [sendChunkLoop, ho]
      intro hc
      simp only [List.mem_cons]
      exact Or.inr (Or.inr (Or.inr (ih (attempt + 1) (sendIdx + 1) hc)))

/-- Helper: every send a chunk retry loop emits belongs to its chunk index,
goes to its destination and carries its (fixed) request. -/
theorem sendChunkLoop_send_mem (oracle : Nat → Option ErrorCode) (dst : HostAddr)
    (req : SendSnapshotRequest) (commit : LogID × TermID) (isDone : Bool) (cIdx : Nat) :
    ∀ retry attempt sendIdx c a d q,
      SnapEvent.send c a d q ∈
        (sendChunkLoop oracle dst req commit isDone cIdx retry attempt sendIdx).2.1 →
      c = cIdx ∧ d = dst ∧ q = req := by
  intro retry
  induction retry with
  | zero => intro attempt sendIdx c a d q h; simp [sendChunkLoop] at h
  | succ r ih =>
    intro attempt sendIdx c a d q h
    cases ho : oracle sendIdx with
    | some code =>
      by_cases hsc : code = ErrorCode.SUCCEEDED
      · cases hd : isDone with
        | true =>
          simp [sendChunkLoop, ho, hsc, hd] at h
          exact ⟨h.1, h.2.2.1, h.2.2.2⟩
        | false =>
          simp [sendChunkLoop, ho, hsc, hd] at h
          exact ⟨h.1, h.2.2.1, h.2.2.2⟩
      · simp [sendChunkLoop, ho, hsc] at h
        exact ⟨h.1, h.2.2.1, h.2.2.2⟩
    | none =>
      simp only [sendChunkLoop, ho, List.mem_cons] at h
      rcases h with h | h | h | h
      · injection h with h1 h2 h3 h4
        exact ⟨h1, h3, h4⟩
      · exact absurd h (by simp)
      · exact absurd h (by simp)
      · exact ih (attempt + 1) (sendIdx + 1) c a d q h

/-- Helper: the chunk index of every send of a chunk retry loop is that loop's
chunk index. -/
theorem sendChunkLoop_chunkIdxs (oracle : Nat → Option ErrorCode) (dst : HostAddr)
    (req : SendSnapshotRequest) (commit : LogID × TermID) (isDone : Bool) (cIdx : Nat) :
    ∀ retry attempt sendIdx x,
      x ∈ snapSendChunkIdxs
        (sendChunkLoop oracle dst req commit isDone cIdx retry attempt sendIdx).2.1 →
      x = cIdx := by
  intro retry
  induction retry with
  | zero => intro attempt sendIdx x h; simp [sendChunkLoop, snapSendChunkIdxs] at h
  | succ r ih =>
    intro attempt sendIdx x h
    cases ho : oracle sendIdx with
    | some code =>
      by_cases hsc : code = ErrorCode.SUCCEEDED
      · cases hd : isDone with
        | true => simp [sendChunkLoop, ho, hsc, hd, snapSendChunkIdxs] at h; exact h
        | false => simp [sendChunkLoop, ho, hsc, hd, snapSendChunkIdxs] at h; exact h
      · simp [sendChunkLoop, ho, hsc, snapSendChunkIdxs] at h; exact h
    | none =>
      simp only [sendChunkLoop, ho, snapSendChunkIdxs, List.mem_cons] at h
      rcases h with h | h
      · exact h
      · exact ih (attempt + 1) (sendIdx + 1) x h

/-- Helper: a chunk retry loop performs at most `retry` sends. -/
theorem sendChunkLoop_sendCount_le (oracle : Nat → Option ErrorCode) (dst : HostAddr)
    (req : SendSnapshotRequest) (commit : LogID × TermID) (isDone : Bool) (cIdx : Nat) :
    ∀ retry attempt sendIdx,
      snapSendCount
        (sendChunkLoop oracle dst req commit isDone cIdx retry attempt sendIdx).2.1 ≤
        retry := by
  intro retry
  induction retry with
  | zero => intro attempt sendIdx; simp [sendChunkLoop, snapSendCount]
  | succ r ih =>
    intro attempt sendIdx
    cases ho : oracle sendIdx with
    | some code =>
      by_cases hsc : code = ErrorCode.SUCCEEDED
      · cases hd : isDone with
        | true => simp [sendChunkLoop, ho, hsc, hd, snapSendCount]
        | false => simp [sendChunkLoop, ho, hsc, hd, snapSendCount]
      · simp [sendChunkLoop, ho, hsc, snapSendCount]
    | none =>
      simp only [sendChunkLoop, ho, snapSendCount]
      have := ih (attempt + 1) (sendIdx + 1)
      omega

/-- Helper: in a chunk retry loop, every send after the first happened only
because the previous attempt's transport failed: if the loop performed `m`
sends then the oracle answered an exception for the first `m - 1` physical
sends. -/
theorem sendChunkLoop_retry_only_on_exception (oracle : Nat → Option ErrorCode)
    (dst : HostAddr) (req : SendSnapshotRequest) (commit : LogID × TermID)
    (isDone : Bool) (cIdx : Nat) :
    ∀ retry attempt sendIdx j,
      j + 1 < snapSendCount
        (sendChunkLoop oracle dst req commit isDone cIdx retry attempt sendIdx).2.1 →
      oracle (sendIdx + j) = none := by
  intro retry
  induction retry with
  | zero => intro attempt sendIdx j h; simp [sendChunkLoop, snapSendCount] at h
  | succ r ih =>
    intro attempt sendIdx j h
    cases ho : oracle sendIdx with
    | some code =>
      by_cases hsc : code = ErrorCode.SUCCEEDED
      · cases hd : isDone with
        | true => simp [sendChunkLoop, ho, hsc, hd, snapSendCount] at h
        | false => simp [sendChunkLoop, ho, hsc, hd, snapSendCount] at h
      · simp [sendChunkLoop, ho, hsc, snapSendCount] at h
    | none =>
      simp only [sendChunkLoop, ho, snapSendCount] at h
      cases j with
      | zero => simpa using ho
      | succ j2 =>
        have := ih (attempt + 1) (sendIdx + 1) j2 (by omega)
        rwa [show sendIdx + 1 + j2 = sendIdx + (j2 + 1) by omega] at this

/-- Helper: a chunk retry loop whose every attempt hits a transport exception
exhausts its budget: it returns false after exactly `retry` sends and `retry`
1 s sleeps, resolving one error. -/
theorem sendChunkLoop_all_exceptions (oracle : Nat → Option ErrorCode) (dst : HostAddr)
    (req : SendSnapshotRequest) (commit : LogID × TermID) (isDone : Bool) (cIdx : Nat) :
    ∀ retry attempt sendIdx,
      (∀ j, j < retry → oracle (sendIdx + j) = none) →
      (sendChunkLoop oracle dst req commit isDone cIdx retry attempt sendIdx).1 = false ∧
      (sendChunkLoop oracle dst req commit isDone cIdx retry attempt sendIdx).2.2.1 =
        [SnapResult.error "Send snapshot failed!"] ∧
      snapSendCount
        (sendChunkLoop oracle dst req commit isDone cIdx retry attempt sendIdx).2.1 =
        retry ∧
      snapSleepCount
        (sendChunkLoop oracle dst req commit isDone cIdx retry attempt sendIdx).2.1 =
        retry := by
  intro retry
  induction retry with
  | zero => intro attempt sendIdx _; simp [sendChunkLoop, snapSendCount, snapSleepCount]
  | succ r ih =>
    intro attempt sendIdx hexc
    have ho : oracle sendIdx = none := by simpa using hexc 0 (by omega)
    have ihres := ih (attempt + 1) (sendIdx + 1)
      (fun j hj => by
        have := hexc (j + 1) (by omega)
        rwa [show sendIdx + (j + 1) = sendIdx + 1 + j by omega] at this)
    simp only [sendChunkLoop, ho, snapSendCount, snapSleepCount]
    exact ⟨ihres.1, ihres.2.1, by
      have := ihres.2.2.1
      simp only [snapSendCount] at this ⊢
      omega, by
      have := ihres.2.2.2
      simp only [snapSleepCount] at this ⊢
      omega⟩

/-- Helper: a received non-success response terminates the retry loop at once:
one send, no sleep, promise resolved with one error, returns false. -/
theorem sendChunkLoop_nonsuccess_terminal (oracle : Nat → Option ErrorCode)
    (dst : HostAddr) (req : SendSnapshotRequest) (commit : LogID × TermID)
    (isDone : Bool) (cIdx : Nat) (code : ErrorCode) :
    ∀ retry attempt sendIdx, 0 < retry →
      oracle sendIdx = some code → code ≠ ErrorCode.SUCCEEDED →
      sendChunkLoop oracle dst req commit isDone cIdx retry attempt sendIdx =
        (false,
         [SnapEvent.send cIdx attempt dst req, SnapEvent.respOk cIdx code,
          SnapEvent.setValue (SnapResult.error "Send snapshot failed!")],
         [SnapResult.error "Send snapshot failed!"], sendIdx + 1) := by
  intro retry attempt sendIdx hr ho hsc
  obtain ⟨r2, rfl⟩ : ∃ r2, retry = r2 + 1 := ⟨retry - 1, by omega⟩
  simp [sendChunkLoop, ho, hsc]

/-- Helper: a first-attempt `SUCCEEDED` response finishes the retry loop
immediately with a single send. -/
theorem sendChunkLoop_success_first (oracle : Nat → Option ErrorCode) (dst : HostAddr)
    (req : SendSnapshotRequest) (commit : LogID × TermID) (isDone : Bool) (cIdx : Nat) :
    ∀ retry attempt sendIdx, 0 < retry →
      oracle sendIdx = some ErrorCode.SUCCEEDED →
      sendChunkLoop oracle dst req commit isDone cIdx retry attempt sendIdx =
        (true,
         [SnapEvent.send cIdx attempt dst req,
          SnapEvent.respOk cIdx ErrorCode.SUCCEEDED] ++
           (if isDone then [SnapEvent.setValue (SnapResult.ok commit)] else []),
         if isDone then [SnapResult.ok commit] else [], sendIdx + 1) := by
  intro retry attempt sendIdx hr ho
  obtain ⟨r2, rfl⟩ : ∃ r2, retry = r2 + 1 := ⟨retry - 1, by omega⟩
  cases hd : isDone with
  | true => simp [sendChunkLoop, ho, hd]
  | false => simp [sendChunkLoop, ho, hd]

/-- Helper: `flightScan` distributes over concatenation. -/
theorem flightScan_append (ys : List SnapEvent) :
    ∀ xs b, flightScan b (xs ++ ys) =
      (flightScan b xs).bind fun b2 => flightScan b2 ys := by
  intro xs
  induction xs with
  | nil => intro b; simp [flightScan]
  | cons e r ih =>
    intro b
    cases e <;> cases b <;> simp [flightScan, ih]

/-- Helper: a chunk retry loop's events alternate strictly between one send
and its response: the one-in-flight scan accepts them and ends idle. -/
theorem sendChunkLoop_flight (oracle : Nat → Option ErrorCode) (dst : HostAddr)
    (req : SendSnapshotRequest) (commit : LogID × TermID) (isDone : Bool) (cIdx : Nat) :
    ∀ retry attempt sendIdx,
      flightScan false
        (sendChunkLoop oracle dst req commit isDone cIdx retry attempt sendIdx).2.1 =
        some false := by
  intro retry
  induction retry with
  | zero => intro attempt sendIdx; simp [sendChunkLoop, flightScan]
  | succ r ih =>
    intro attempt sendIdx
    cases ho : oracle sendIdx with
    | some code =>
      by_cases hsc : code = ErrorCode.SUCCEEDED
      · cases hd : isDone with
        | true => simp [sendChunkLoop, ho, hsc, hd, flightScan]
        | false => simp [sendChunkLoop, ho, hsc, hd, flightScan]
      · simp [sendChunkLoop, ho, hsc, flightScan]
    | none =>
      simp only [sendChunkLoop, ho, flightScan]
      simp [flightScan, ih (attempt + 1) (sendIdx + 1)]

/-- Helper: `snapSendChunkIdxs` distributes over concatenation. -/
theorem snapSendChunkIdxs_append :
    ∀ xs ys, snapSendChunkIdxs (xs ++ ys) =
      snapSendChunkIdxs xs ++ snapSendChunkIdxs ys := by
  intro xs ys
  induction xs with
  | nil => simp [snapSendChunkIdxs]
  | cons e r ih => cases e <;> simp [snapSendChunkIdxs, ih]

/-- Helper: `snapSendCount` adds over concatenation. -/
theorem snapSendCount_append :
    ∀ xs ys, snapSendCount (xs ++ ys) = snapSendCount xs + snapSendCount ys := by
  intro xs ys
  induction xs with
  | nil => simp [snapSendCount]
  | cons e r ih => cases e <;> simp [snapSendCount, ih] <;> omega

/-- Helper: `chainUpdateEdge` resolves its promise exactly once provided some
attempt within the fuel bound is terminal. -/
theorem chainUpdateEdge_resolves_once (env : ChainEnv) (req : UpdateEdgeRequest)
    (t : TermID) (v : Option Int) :
    ∀ fuel s evb,
      (∃ k, k < fuel ∧ chainTerminal env req.space_id req.part_id (s + k)) →
      (promiseSets (chainUpdateEdge env req t v evb fuel s)).length = 1 := by
  intro fuel
  induction fuel with
  | zero =>
    rintro s evb ⟨k, hk, _⟩
    omega
  | succ f ih =>
    rintro s evb ⟨k, hk, hterm⟩
    cases hl : env.getLeader s req.space_id req.part_id with
    | none => simp [chainUpdateEdge, hl, promiseSets]
    | some a =>
      by_cases hc : getErrorCode (env.rpcResp s) = ErrorCode.E_LEADER_CHANGED
      · have hk0 : k ≠ 0 := by
          intro hz
          subst hz
          rw [Nat.add_zero] at hterm
          rcases hterm with h1 | h2
          · rw [hl] at h1; exact Option.noConfusion h1
          · exact h2 hc
        have hrec := ih (s + 1) none
          ⟨k - 1, by omega, by
            rwa [show s + 1 + (k - 1) = s + k by omega]⟩
        simp [chainUpdateEdge, hl, hc, promiseSets, hrec]
      · simp [chainUpdateEdge, hl, hc, promiseSets]

/-- Helper: `chainAddEdges` resolves its promise exactly once provided its
parts map is non-empty and some attempt within the fuel bound is terminal. -/
theorem chainAddEdges_resolves_once (env : ChainEnv) (req : AddEdgesRequest)
    (t : TermID) (v : Option Int) (p0 : PartitionID) (b : String)
    (ps : List (PartitionID × String)) (hparts : req.parts = (p0, b) :: ps) :
    ∀ fuel s evb,
      (∃ k, k < fuel ∧ chainTerminal env req.space_id p0 (s + k)) →
      (promiseSets (chainAddEdges env req t v evb fuel s)).length = 1 := by
  intro fuel
  induction fuel with
  | zero =>
    rintro s evb ⟨k, hk, _⟩
    omega
  | succ f ih =>
    rintro s evb ⟨k, hk, hterm⟩
    cases hl : env.getLeader s req.space_id p0 with
    | none => simp [chainAddEdges, hparts, hl, promiseSets]
    | some a =>
      by_cases hc : getErrorCode (env.rpcResp s) = ErrorCode.E_LEADER_CHANGED
      · have hk0 : k ≠ 0 := by
          intro hz
          subst hz
          rw [Nat.add_zero] at hterm
          rcases hterm with h1 | h2
          · rw [hl] at h1; exact Option.noConfusion h1
          · exact h2 hc
        have hrec := ih (s + 1) none
          ⟨k - 1, by omega, by
            rwa [show s + 1 + (k - 1) = s + k by omega]⟩
        simp [chainAddEdges, hparts, hl, hc, promiseSets, hrec]
      · simp [chainAddEdges, hparts, hl, hc, promiseSets]

/-- Helper: `chainDeleteEdges` resolves its promise exactly once provided its
parts map is non-empty and some attempt within the fuel bound is terminal. -/
theorem chainDeleteEdges_resolves_once (env : ChainEnv) (req : DeleteEdgesRequest)
    (txnId : String) (t : TermID) (p0 : PartitionID) (b : String)
    (ps : List (PartitionID × String)) (hparts : req.parts = (p0, b) :: ps) :
    ∀ fuel s evb,
      (∃ k, k < fuel ∧ chainTerminal env req.space_id p0 (s + k)) →
      (promiseSets (chainDeleteEdges env req txnId t evb fuel s)).length = 1 := by
  intro fuel
  induction fuel with
  | zero =>
    rintro s evb ⟨k, hk, _⟩
    omega
  | succ f ih =>
    rintro s evb ⟨k, hk, hterm⟩
    cases hl : env.getLeader s req.space_id p0 with
    | none => simp [chainDeleteEdges, hparts, hl, promiseSets]
    | some a =>
      by_cases hc : getErrorCode (env.rpcResp s) = ErrorCode.E_LEADER_CHANGED
      · have hk0 : k ≠ 0 := by
          intro hz
          subst hz
          rw [Nat.add_zero] at hterm
          rcases hterm with h1 | h2
          · rw [hl] at h1; exact Option.noConfusion h1
          · exact h2 hc
        have hrec := ih (s + 1) none
          ⟨k - 1, by omega, by
            rwa [show s + 1 + (k - 1) = s + k by omega]⟩
        simp [chainDeleteEdges, hparts, hl, hc, promiseSets, hrec]
      · simp [chainDeleteEdges, hparts, hl, hc, promiseSets]

/-- Helper: lists whose elements are all equal are pairwise ordered. -/
theorem pairwise_le_of_const {l : List Nat} {c : Nat} (h : ∀ x ∈ l, x = c) :
    List.Pairwise (fun a b => a ≤ b) l := by
  induction l with
  | nil => exact List.Pairwise.nil
  | cons x r ih =>
    refine List.Pairwise.cons ?_ (ih fun y hy => h y (List.mem_cons_of_mem x hy))
    intro y hy
    rw [h x (List.mem_cons_self x r), h y (List.mem_cons_of_mem x hy)]

/-- Helper: a snapshot transfer's whole event trace passes the one-in-flight
scan and ends with no send outstanding. -/
theorem snapshotTrace_flight (part : RaftPart) (dst : HostAddr)
    (commit : LogID × TermID) (oracle : Nat → Option ErrorCode) :
    ∀ chunks cIdx sendIdx,
      flightScan false
        (accessAllRowsInSnapshot (snapshotCallback part dst commit oracle)
          chunks cIdx sendIdx).1 = some false := by
  intro chunks
  induction chunks with
  | nil => intro cIdx sendIdx; simp [accessAllRowsInSnapshot, flightScan]
  | cons c rest ih =>
    intro cIdx sendIdx
    by_cases hf : c.status = SnapshotStatus.FAILED
    · simp [accessAllRowsInSnapshot, snapshotCallback, hf, flightScan]
    · simp only [accessAllRowsInSnapshot, snapshotCallback, if_neg hf]
      by_cases hc1 :
        (sendChunkLoop oracle dst (chunkReq part commit c) commit
          (decide (c.status = SnapshotStatus.DONE)) cIdx
          FLAGS_snapshot_send_retry_times 0 sendIdx).1 = true
      · rw [if_pos hc1]
        show flightScan false (_ ++ _) = some false
        rw [flightScan_append,
          sendChunkLoop_flight oracle dst (chunkReq part commit c) commit
            (decide (c.status = SnapshotStatus.DONE)) cIdx
            FLAGS_snapshot_send_retry_times 0 sendIdx]
        simpa using ih (cIdx + 1) _
      · rw [if_neg hc1]
        exact sendChunkLoop_flight oracle dst (chunkReq part commit c) commit
          (decide (c.status = SnapshotStatus.DONE)) cIdx
          FLAGS_snapshot_send_retry_times 0 sendIdx

/-- Helper: every send of the iteration started at invocation index `cIdx`
belongs to a chunk index at least `cIdx`. -/
theorem snapshotTrace_chunkIdxs_ge (part : RaftPart) (dst : HostAddr)
    (commit : LogID × TermID) (oracle : Nat → Option ErrorCode) :
    ∀ chunks cIdx sendIdx x,
      x ∈ snapSendChunkIdxs
        (accessAllRowsInSnapshot (snapshotCallback part dst commit oracle)
          chunks cIdx sendIdx).1 →
      cIdx ≤ x := by
  intro chunks
  induction chunks with
  | nil => intro cIdx sendIdx x h; simp [accessAllRowsInSnapshot, snapSendChunkIdxs] at h
  | cons c rest ih =>
    intro cIdx sendIdx x h
    by_cases hf : c.status = SnapshotStatus.FAILED
    · simp [accessAllRowsInSnapshot, snapshotCallback, hf, snapSendChunkIdxs] at h
    · simp only [accessAllRowsInSnapshot, snapshotCallback, if_neg hf] at h
      by_cases hc1 :
        (sendChunkLoop oracle dst (chunkReq part commit c) commit
          (decide (c.status = SnapshotStatus.DONE)) cIdx
          FLAGS_snapshot_send_retry_times 0 sendIdx).1 = true
      · rw [if_pos hc1] at h
        rw [snapSendChunkIdxs_append, List.mem_append] at h
        rcases h with h | h
        · exact le_of_eq (sendChunkLoop_chunkIdxs oracle dst (chunkReq part commit c)
            commit (decide (c.status = SnapshotStatus.DONE)) cIdx
            FLAGS_snapshot_send_retry_times 0 sendIdx x h).symm
        · exact le_trans (by omega) (ih (cIdx + 1) _ x h)
      · rw [if_neg (by simp [hc1])] at h
        exact le_of_eq (sendChunkLoop_chunkIdxs oracle dst (chunkReq part commit c)
          commit (decide (c.status = SnapshotStatus.DONE)) cIdx
          FLAGS_snapshot_send_retry_times 0 sendIdx x h).symm

/-- Helper: the chunk indices of the sends of a snapshot iteration are
non-decreasing. -/
theorem snapshotTrace_chunkIdxs_sorted (part : RaftPart) (dst : HostAddr)
    (commit : LogID × TermID) (oracle : Nat → Option ErrorCode) :
    ∀ chunks cIdx sendIdx,
      List.Pairwise (fun a b => a ≤ b)
        (snapSendChunkIdxs
          (accessAllRowsInSnapshot (snapshotCallback part dst commit oracle)
            chunks cIdx sendIdx).1) := by
  intro chunks
  induction chunks with
  | nil => intro cIdx sendIdx; simp [accessAllRowsInSnapshot, snapSendChunkIdxs]
  | cons c rest ih =>
    intro cIdx sendIdx
    by_cases hf : c.status = SnapshotStatus.FAILED
    · simp [accessAllRowsInSnapshot, snapshotCallback, hf, snapSendChunkIdxs]
    · simp only [accessAllRowsInSnapshot, snapshotCallback, if_neg hf]
      by_cases hc1 :
        (sendChunkLoop oracle dst (chunkReq part commit c) commit
          (decide (c.status = SnapshotStatus.DONE)) cIdx
          FLAGS_snapshot_send_retry_times 0 sendIdx).1 = true
      · rw [if_pos hc1, snapSendChunkIdxs_append, List.pairwise_append]
        refine ⟨pairwise_le_of_const fun x hx =>
            sendChunkLoop_chunkIdxs oracle dst (chunkReq part commit c) commit
              (decide (c.status = SnapshotStatus.DONE)) cIdx
              FLAGS_snapshot_send_retry_times 0 sendIdx x hx,
          ih (cIdx + 1) _, ?_⟩
        intro a ha b hb
        have h1 := sendChunkLoop_chunkIdxs oracle dst (chunkReq part commit c) commit
          (decide (c.status = SnapshotStatus.DONE)) cIdx
          FLAGS_snapshot_send_retry_times 0 sendIdx a ha
        have h2 := snapshotTrace_chunkIdxs_ge part dst commit oracle rest (cIdx + 1) _ b hb
        omega
      · rw [if_neg (by simp [hc1])]
        exact pairwise_le_of_const fun x hx =>
          sendChunkLoop_chunkIdxs oracle dst (chunkReq part commit c) commit
            (decide (c.status = SnapshotStatus.DONE)) cIdx
            FLAGS_snapshot_send_retry_times 0 sendIdx x hx

/-- Helper: within one snapshot iteration, a send for chunk `k + 1` is
preceded by a received `SUCCEEDED` response for chunk `k`. -/
theorem snapshotTrace_send_after_ack (part : RaftPart) (dst : HostAddr)
    (commit : LogID × TermID) (oracle : Nat → Option ErrorCode) :
    ∀ chunks cIdx sendIdx k a d q, cIdx ≤ k →
      SnapEvent.send (k + 1) a d q ∈
        (accessAllRowsInSnapshot (snapshotCallback part dst commit oracle)
          chunks cIdx sendIdx).1 →
      List.Sublist
        [SnapEvent.respOk k ErrorCode.SUCCEEDED, SnapEvent.send (k + 1) a d q]
        ((accessAllRowsInSnapshot (snapshotCallback part dst commit oracle)
          chunks cIdx sendIdx).1) := by
  intro chunks
  induction chunks with
  | nil => intro cIdx sendIdx k a d q _ h; simp [accessAllRowsInSnapshot] at h
  | cons c rest ih =>
    intro cIdx sendIdx k a d q hk h
    by_cases hf : c.status = SnapshotStatus.FAILED
    · simp [accessAllRowsInSnapshot, snapshotCallback, hf] at h
    · simp only [accessAllRowsInSnapshot, snapshotCallback, if_neg hf] at h ⊢
      by_cases hc1 :
        (sendChunkLoop oracle dst (chunkReq part commit c) commit
          (decide (c.status = SnapshotStatus.DONE)) cIdx
          FLAGS_snapshot_send_retry_times 0 sendIdx).1 = true
      · rw [if_pos hc1] at h ⊢
        rw [List.mem_append] at h
        rcases h with h | h
        · have := (sendChunkLoop_send_mem oracle dst (chunkReq part commit c) commit
            (decide (c.status = SnapshotStatus.DONE)) cIdx
            FLAGS_snapshot_send_retry_times 0 sendIdx (k + 1) a d q h).1
          omega
        · by_cases hke : k = cIdx
          · subst hke
            have hresp := sendChunkLoop_cont_respOk oracle dst (chunkReq part commit c)
              commit (decide (c.status = SnapshotStatus.DONE)) k
              FLAGS_snapshot_send_retry_times 0 sendIdx hc1
            exact List.Sublist.append (List.singleton_sublist.mpr hresp)
              (List.singleton_sublist.mpr h)
          · have := ih (cIdx + 1) _ k a d q (by omega) h
            exact this.trans (List.sublist_append_right _ _)
      · rw [if_neg hc1] at h ⊢
        have := (sendChunkLoop_send_mem oracle dst (chunkReq part commit c) commit
          (decide (c.status = SnapshotStatus.DONE)) cIdx
          FLAGS_snapshot_send_retry_times 0 sendIdx (k + 1) a d q h).1
        omega

/-- Helper: every send of a snapshot iteration is addressed to the transfer's
destination and carries exactly the request built from the chunk of its
invocation — in particular the captured commit position and the terminal flag
`status == DONE`. -/
theorem snapshotTrace_send_characterization (part : RaftPart) (dst : HostAddr)
    (commit : LogID × TermID) (oracle : Nat → Option ErrorCode) :
    ∀ chunks cIdx sendIdx c a d q,
      SnapEvent.send c a d q ∈
        (accessAllRowsInSnapshot (snapshotCallback part dst commit oracle)
          chunks cIdx sendIdx).1 →
      ∃ i ch, chunks.get? i = some ch ∧ c = cIdx + i ∧ d = dst ∧
        q = chunkReq part commit ch := by
  intro chunks
  induction chunks with
  | nil => intro cIdx sendIdx c a d q h; simp [accessAllRowsInSnapshot] at h
  | cons c0 rest ih =>
    intro cIdx sendIdx c a d q h
    by_cases hf : c0.status = SnapshotStatus.FAILED
    · simp [accessAllRowsInSnapshot, snapshotCallback, hf] at h
    · simp only [accessAllRowsInSnapshot, snapshotCallback, if_neg hf] at h
      by_cases hc1 :
        (sendChunkLoop oracle dst (chunkReq part commit c0) commit
          (decide (c0.status = SnapshotStatus.DONE)) cIdx
          FLAGS_snapshot_send_retry_times 0 sendIdx).1 = true
      · rw [if_pos hc1] at h
        rw [List.mem_append] at h
        rcases h with h | h
        · obtain ⟨h1, h2, h3⟩ := sendChunkLoop_send_mem oracle dst (chunkReq part commit c0)
            commit (decide (c0.status = SnapshotStatus.DONE)) cIdx
            FLAGS_snapshot_send_retry_times 0 sendIdx c a d q h
          exact ⟨0, c0, rfl, by omega, h2, h3⟩
        · obtain ⟨i, ch, hget, hc, hd, hq⟩ := ih (cIdx + 1) _ c a d q h
          exact ⟨i + 1, ch, hget, by omega, hd, hq⟩
      · rw [if_neg hc1] at h
        obtain ⟨h1, h2, h3⟩ := sendChunkLoop_send_mem oracle dst (chunkReq part commit c0)
          commit (decide (c0.status = SnapshotStatus.DONE)) cIdx
          FLAGS_snapshot_send_retry_times 0 sendIdx c a d q h
        exact ⟨0, c0, rfl, by omega, h2, h3⟩

/-- Helper: a well-formed iteration script — any number of `MORE` invocations
closed by one terminal (`DONE` or `FAILED`) invocation — resolves the result
promise exactly once, whatever the transport does. -/
theorem snapshotTrace_resolutions_once (part : RaftPart) (dst : HostAddr)
    (commit : LogID × TermID) (oracle : Nat → Option ErrorCode) :
    ∀ ms e cIdx sendIdx,
      (∀ c ∈ ms, c.status = SnapshotStatus.MORE) →
      e.status ≠ SnapshotStatus.MORE →
      ((accessAllRowsInSnapshot (snapshotCallback part dst commit oracle)
        (ms ++ [e]) cIdx sendIdx).2).length = 1 := by
  intro ms
  induction ms with
  | nil =>
    intro e cIdx sendIdx _ he
    by_cases hf : e.status = SnapshotStatus.FAILED
    · simp [accessAllRowsInSnapshot, snapshotCallback, hf]
    · have hd : e.status = SnapshotStatus.DONE := by
        cases hstat : e.status <;> simp_all
      have hdec : decide (e.status = SnapshotStatus.DONE) = true := by simp [hd]
      simp only [List.nil_append, accessAllRowsInSnapshot, snapshotCallback, if_neg hf, hdec]
      by_cases hc1 :
        (sendChunkLoop oracle dst (chunkReq part commit e) commit true cIdx
          FLAGS_snapshot_send_retry_times 0 sendIdx).1 = true
      · rw [if_pos hc1]
        have hsets := (sendChunkLoop_resolutions oracle dst (chunkReq part commit e) commit
          true cIdx FLAGS_snapshot_send_retry_times 0 sendIdx).1 hc1
        simp only [if_pos] at hsets
        simp [accessAllRowsInSnapshot, hsets]
      · rw [if_neg hc1]
        rw [Bool.not_eq_true] at hc1
        have hsets := (sendChunkLoop_resolutions oracle dst (chunkReq part commit e) commit
          true cIdx FLAGS_snapshot_send_retry_times 0 sendIdx).2 hc1
        simp [hsets]
  | cons m ms ih =>
    intro e cIdx sendIdx hm he
    have hstat : m.status = SnapshotStatus.MORE := hm m (List.mem_cons_self m ms)
    have hf : ¬ m.status = SnapshotStatus.FAILED := by simp [hstat]
    have hdec : decide (m.status = SnapshotStatus.DONE) = false := by simp [hstat]
    simp only [List.cons_append, accessAllRowsInSnapshot, snapshotCallback, if_neg hf, hdec]
    by_cases hc1 :
      (sendChunkLoop oracle dst (chunkReq part commit m) commit false cIdx
        FLAGS_snapshot_send_retry_times 0 sendIdx).1 = true
    · rw [if_pos hc1]
      have hsets := (sendChunkLoop_resolutions oracle dst (chunkReq part commit m) commit
        false cIdx FLAGS_snapshot_send_retry_times 0 sendIdx).1 hc1
      simp only [Bool.false_eq_true, if_false] at hsets
      simp only [hsets, List.nil_append]
      exact ih e (cIdx + 1) _ (fun c hc => hm c (List.mem_cons_of_mem m hc)) he
    · rw [if_neg hc1]
      rw [Bool.not_eq_true] at hc1
      have hsets := (sendChunkLoop_resolutions oracle dst (chunkReq part commit m) commit
        false cIdx FLAGS_snapshot_send_retry_times 0 sendIdx).2 hc1
      simp [hsets]

/-- Helper: with a transport that acknowledges every send with `SUCCEEDED`, a
script of `MORE` chunks closed by a `DONE` chunk resolves exactly
`[ok commit]`. -/
theorem snapshotTrace_happy (part : RaftPart) (dst : HostAddr)
    (commit : LogID × TermID) (oracle : Nat → Option ErrorCode)
    (hsucc : ∀ n, oracle n = some ErrorCode.SUCCEEDED) :
    ∀ ms d cIdx sendIdx,
      (∀ c ∈ ms, c.status = SnapshotStatus.MORE) →
      d.status = SnapshotStatus.DONE →
      (accessAllRowsInSnapshot (snapshotCallback part dst commit oracle)
        (ms ++ [d]) cIdx sendIdx).2 = [SnapResult.ok commit] := by
  intro ms
  induction ms with
  | nil =>
    intro d cIdx sendIdx _ hd
    have hf : ¬ d.status = SnapshotStatus.FAILED := by simp [hd]
    have hdec : decide (d.status = SnapshotStatus.DONE) = true := by simp [hd]
    have hl := sendChunkLoop_success_first oracle dst (chunkReq part commit d) commit
      true cIdx FLAGS_snapshot_send_retry_times 0 sendIdx (by decide) (hsucc sendIdx)
    simp only [List.nil_append, accessAllRowsInSnapshot, snapshotCallback, if_neg hf,
      hdec, hl]
    simp [accessAllRowsInSnapshot]
  | cons m ms ih =>
    intro d cIdx sendIdx hm hd
    have hstat : m.status = SnapshotStatus.MORE := hm m (List.mem_cons_self m ms)
    have hf : ¬ m.status = SnapshotStatus.FAILED := by simp [hstat]
    have hdec : decide (m.status = SnapshotStatus.DONE) = false := by simp [hstat]
    have hl := sendChunkLoop_success_first oracle dst (chunkReq part commit m) commit
      false cIdx FLAGS_snapshot_send_retry_times 0 sendIdx (by decide) (hsucc sendIdx)
    simp only [List.cons_append, accessAllRowsInSnapshot, snapshotCallback, if_neg hf,
      hdec, hl]
    simp only [Bool.false_eq_true, if_false, List.nil_append]
    exact ih d (cIdx + 1) _ (fun c hc => hm c (List.mem_cons_of_mem m hc)) hd

/-- Helper: the iteration driver stops as soon as the callback returns false —
nothing of the remaining script is run. -/
theorem accessAll_stops_on_false
    (cb : ChunkInput → Nat → Nat → Bool × List SnapEvent × List SnapResult × Nat)
    (c : ChunkInput) (rest : List ChunkInput) (cIdx sendIdx : Nat)
    (h : (cb c cIdx sendIdx).1 = false) :
    accessAllRowsInSnapshot cb (c :: rest) cIdx sendIdx =
      ((cb c cIdx sendIdx).2.1, (cb c cIdx sendIdx).2.2.1) := by
  simp [accessAllRowsInSnapshot, h]

/-- C8: within one snapshot transfer, chunks are sent strictly in the order
produced by the row iteration with at most one chunk in flight: the trace
passes the one-in-flight scan (every send is answered before the next send
starts), the chunk indices of the sends are non-decreasing, and a send for
chunk `k+1` only appears after a received `SUCCEEDED` response for chunk `k`. -/
theorem C8_chunks_serialized_in_order :
    ∀ (part : RaftPart) (dst : HostAddr) (chunks : List ChunkInput)
      (oracle : Nat → Option ErrorCode),
      flightScan false (sendSnapshot part dst chunks oracle).1 = some false ∧
      List.Pairwise (fun a b => a ≤ b)
        (snapSendChunkIdxs (sendSnapshot part dst chunks oracle).1) ∧
      (∀ k a d q,
        SnapEvent.send (k + 1) a d q ∈ (sendSnapshot part dst chunks oracle).1 →
        List.Sublist
          [SnapEvent.respOk k ErrorCode.SUCCEEDED, SnapEvent.send (k + 1) a d q]
          ((sendSnapshot part dst chunks oracle).1)) := by
  intro part dst chunks oracle
  exact ⟨snapshotTrace_flight part dst part.lastCommittedLogId oracle chunks 0 0,
    snapshotTrace_chunkIdxs_sorted part dst part.lastCommittedLogId oracle chunks 0 0,
    fun k a d q h => snapshotTrace_send_after_ack part dst part.lastCommittedLogId oracle
      chunks 0 0 k a d q (Nat.zero_le k) h⟩

/-- Witness for C8: on the concrete two-chunk script, the send of chunk 1 is
preceded by the `SUCCEEDED` acknowledgment of chunk 0. -/
theorem C8_chunks_serialized_in_order_witness :
    List.Sublist
      [SnapEvent.respOk 0 ErrorCode.SUCCEEDED,
       SnapEvent.send 1 0 snapDst0 (chunkReq snapPart0 (10, 6)
         ⟨["r2"], 2, 16, SnapshotStatus.DONE⟩)]
      ((sendSnapshot snapPart0 snapDst0 snapChunksMD oracleOk).1) :=
  (C8_chunks_serialized_in_order snapPart0 snapDst0 snapChunksMD oracleOk).2.2 0 0
    snapDst0 (chunkReq snapPart0 (10, 6) ⟨["r2"], 2, 16, SnapshotStatus.DONE⟩)
    (by decide)

/-- C5: a transfer whose final chunk carries `done = true` and is acknowledged
with `SUCCEEDED` resolves the result future with exactly the (LogID, Term)
pair captured from `lastCommittedLogId()` before any chunk is sent; and the
terminal flag of any sent chunk request is true iff that chunk's row-iteration
status is `DONE` (every request also carries the captured commit position). -/
theorem C5_done_resolves_captured_commit :
    (∀ (part : RaftPart) (dst : HostAddr) (oracle : Nat → Option ErrorCode)
        (ms : List ChunkInput) (d : ChunkInput),
      (∀ n, oracle n = some ErrorCode.SUCCEEDED) →
      (∀ c ∈ ms, c.status = SnapshotStatus.MORE) →
      d.status = SnapshotStatus.DONE →
      (sendSnapshot part dst (ms ++ [d]) oracle).2 =
        [SnapResult.ok part.lastCommittedLogId]) ∧
    (∀ (part : RaftPart) (dst : HostAddr) (chunks : List ChunkInput)
        (oracle : Nat → Option ErrorCode) (c a : Nat) (d : HostAddr)
        (q : SendSnapshotRequest),
      SnapEvent.send c a d q ∈ (sendSnapshot part dst chunks oracle).1 →
      ∃ ch, chunks.get? c = some ch ∧
        (q.done = true ↔ ch.status = SnapshotStatus.DONE) ∧
        q.committed_log_id = part.lastCommittedLogId.1 ∧
        q.committed_log_term = part.lastCommittedLogId.2) := by
  constructor
  · intro part dst oracle ms d hsucc hm hd
    exact snapshotTrace_happy part dst part.lastCommittedLogId oracle hsucc ms d 0 0 hm hd
  · intro part dst chunks oracle c a d q h
    obtain ⟨i, ch, hget, hc, hdst, hq⟩ := snapshotTrace_send_characterization part dst
      part.lastCommittedLogId oracle chunks 0 0 c a d q h
    refine ⟨ch, by rwa [show c = i by omega], ?_, ?_, ?_⟩
    · subst hq
      simp [chunkReq, send]
    · subst hq
      simp [chunkReq, send]
    · subst hq
      simp [chunkReq, send]

/-- Witness for C5: on the concrete two-chunk script with an all-`SUCCEEDED`
transport, the transfer resolves with the captured commit position, and the
terminal flag of the chunk-1 request holds iff that chunk is `DONE`. -/
theorem C5_done_resolves_captured_commit_witness :
    (sendSnapshot snapPart0 snapDst0 snapChunksMD oracleOk).2 =
      [SnapResult.ok (10, 6)] ∧
    ∃ ch, snapChunksMD.get? 1 = some ch ∧
      ((chunkReq snapPart0 (10, 6) ⟨["r2"], 2, 16, SnapshotStatus.DONE⟩).done = true ↔
        ch.status = SnapshotStatus.DONE) := by
  constructor
  · have := C5_done_resolves_captured_commit.1 snapPart0 snapDst0 oracleOk
      [⟨["r1"], 1, 8, SnapshotStatus.MORE⟩] ⟨["r2"], 2, 16, SnapshotStatus.DONE⟩
      (fun n => rfl) (by decide) rfl
    exact this
  · obtain ⟨ch, hget, hiff, _, _⟩ := C5_done_resolves_captured_commit.2 snapPart0 snapDst0
      snapChunksMD oracleOk 1 0 snapDst0
      (chunkReq snapPart0 (10, 6) ⟨["r2"], 2, 16, SnapshotStatus.DONE⟩) (by decide)
    exact ⟨ch, hget, hiff⟩

/-- C7: if the row-iteration collaborator reports `FAILED` for some invocation
of the snapshot callback, the result future is resolved with an explicit
error, the callback returns false, and no further chunk is sent for that
transfer after that invocation: the callback's result on a `FAILED` chunk is
exactly (false, one error resolution, no send); a false-returning callback
stops the iteration; and from a `FAILED` invocation onward the whole remaining
trace is that one error resolution. -/
theorem C7_failed_iteration_aborts :
    (∀ (part : RaftPart) (dst : HostAddr) (commit : LogID × TermID)
        (oracle : Nat → Option ErrorCode) (chunk : ChunkInput) (cIdx sendIdx : Nat),
      chunk.status = SnapshotStatus.FAILED →
      snapshotCallback part dst commit oracle chunk cIdx sendIdx =
        (false, [SnapEvent.setValue (SnapResult.error "Send snapshot failed!")],
         [SnapResult.error "Send snapshot failed!"], sendIdx)) ∧
    (∀ (cb : ChunkInput → Nat → Nat → Bool × List SnapEvent × List SnapResult × Nat)
        (c : ChunkInput) (rest : List ChunkInput) (cIdx sendIdx : Nat),
      (cb c cIdx sendIdx).1 = false →
      accessAllRowsInSnapshot cb (c :: rest) cIdx sendIdx =
        ((cb c cIdx sendIdx).2.1, (cb c cIdx sendIdx).2.2.1)) ∧
    (∀ (part : RaftPart) (dst : HostAddr) (commit : LogID × TermID)
        (oracle : Nat → Option ErrorCode) (chunk : ChunkInput)
        (rest : List ChunkInput) (cIdx sendIdx : Nat),
      chunk.status = SnapshotStatus.FAILED →
      accessAllRowsInSnapshot (snapshotCallback part dst commit oracle)
        (chunk :: rest) cIdx sendIdx =
        ([SnapEvent.setValue (SnapResult.error "Send snapshot failed!")],
         [SnapResult.error "Send snapshot failed!"])) := by
  refine ⟨?_, ?_, ?_⟩
  · intro part dst commit oracle chunk cIdx sendIdx hf
    simp [snapshotCallback, hf]
  · intro cb c rest cIdx sendIdx h
    exact accessAll_stops_on_false cb c rest cIdx sendIdx h
  · intro part dst commit oracle chunk rest cIdx sendIdx hf
    rw [accessAll_stops_on_false _ _ _ _ _ (by simp [snapshotCallback, hf])]
    simp [snapshotCallback, hf]

/-- Witness for C7: a transfer whose second invocation reports `FAILED`
resolves one error and sends nothing for it. -/
theorem C7_failed_iteration_aborts_witness :
    snapshotCallback snapPart0 snapDst0 (10, 6) oracleOk
        ⟨[], 1, 8, SnapshotStatus.FAILED⟩ 1 1 =
      (false, [SnapEvent.setValue (SnapResult.error "Send snapshot failed!")],
       [SnapResult.error "Send snapshot failed!"], 1) ∧
    accessAllRowsInSnapshot (snapshotCallback snapPart0 snapDst0 (10, 6) oracleOk)
        [⟨[], 1, 8, SnapshotStatus.FAILED⟩, ⟨["r2"], 2, 16, SnapshotStatus.DONE⟩] 1 1 =
      ([SnapEvent.setValue (SnapResult.error "Send snapshot failed!")],
       [SnapResult.error "Send snapshot failed!"]) := by
  constructor
  · exact C7_failed_iteration_aborts.1 snapPart0 snapDst0 (10, 6) oracleOk
      ⟨[], 1, 8, SnapshotStatus.FAILED⟩ 1 1 rfl
  · exact C7_failed_iteration_aborts.2.2 snapPart0 snapDst0 (10, 6) oracleOk
      ⟨[], 1, 8, SnapshotStatus.FAILED⟩ [⟨["r2"], 2, 16, SnapshotStatus.DONE⟩] 1 1 rfl

/-- C4: an individual chunk send is retried only on transport-level failure,
up to the fixed budget `FLAGS_snapshot_send_retry_times` (3) with 1 s sleeps
between attempts: a chunk loop performs at most 3 sends; any send beyond the
first happened only because the previous attempt raised an exception; a
received non-success response is never retried and terminates the whole
transfer with an error after exactly one send; and exhausting the budget on
exceptions resolves the result with an error after exactly 3 sends and 3
sleeps. -/
theorem C4_chunk_send_retry_policy :
    (∀ (oracle : Nat → Option ErrorCode) (dst : HostAddr) (req : SendSnapshotRequest)
        (commit : LogID × TermID) (isDone : Bool) (cIdx attempt sendIdx : Nat),
      snapSendCount (sendChunkLoop oracle dst req commit isDone cIdx
        FLAGS_snapshot_send_retry_times attempt sendIdx).2.1 ≤
        FLAGS_snapshot_send_retry_times) ∧
    (∀ (oracle : Nat → Option ErrorCode) (dst : HostAddr) (req : SendSnapshotRequest)
        (commit : LogID × TermID) (isDone : Bool) (cIdx attempt sendIdx j : Nat),
      j + 1 < snapSendCount (sendChunkLoop oracle dst req commit isDone cIdx
        FLAGS_snapshot_send_retry_times attempt sendIdx).2.1 →
      oracle (sendIdx + j) = none) ∧
    (∀ (part : RaftPart) (dst : HostAddr) (oracle : Nat → Option ErrorCode)
        (c : ChunkInput) (rest : List ChunkInput) (code : ErrorCode),
      c.status ≠ SnapshotStatus.FAILED →
      oracle 0 = some code → code ≠ ErrorCode.SUCCEEDED →
      sendSnapshot part dst (c :: rest) oracle =
        ([SnapEvent.send 0 0 dst (chunkReq part part.lastCommittedLogId c),
          SnapEvent.respOk 0 code,
          SnapEvent.setValue (SnapResult.error "Send snapshot failed!")],
         [SnapResult.error "Send snapshot failed!"])) ∧
    (∀ (part : RaftPart) (dst : HostAddr) (oracle : Nat → Option ErrorCode)
        (c : ChunkInput) (rest : List ChunkInput),
      c.status ≠ SnapshotStatus.FAILED →
      (∀ j, j < FLAGS_snapshot_send_retry_times → oracle j = none) →
      (sendSnapshot part dst (c :: rest) oracle).2 =
        [SnapResult.error "Send snapshot failed!"] ∧
      snapSendCount (sendSnapshot part dst (c :: rest) oracle).1 =
        FLAGS_snapshot_send_retry_times ∧
      snapSleepCount (sendSnapshot part dst (c :: rest) oracle).1 =
        FLAGS_snapshot_send_retry_times) := by
  refine ⟨?_, ?_, ?_, ?_⟩
  · intro oracle dst req commit isDone cIdx attempt sendIdx
    exact sendChunkLoop_sendCount_le oracle dst req commit isDone cIdx
      FLAGS_snapshot_send_retry_times attempt sendIdx
  · intro oracle dst req commit isDone cIdx attempt sendIdx j hj
    exact sendChunkLoop_retry_only_on_exception oracle dst req commit isDone cIdx
      FLAGS_snapshot_send_retry_times attempt sendIdx j hj
  · intro part dst oracle c rest code hf ho hsc
    have hl := sendChunkLoop_nonsuccess_terminal oracle dst
      (chunkReq part part.lastCommittedLogId c) part.lastCommittedLogId
      (decide (c.status = SnapshotStatus.DONE)) 0 code
      FLAGS_snapshot_send_retry_times 0 0 (by decide) ho hsc
    show accessAllRowsInSnapshot _ (c :: rest) 0 0 = _
    rw [accessAll_stops_on_false _ _ _ _ _ (by simp [snapshotCallback, hf, hl])]
    simp [snapshotCallback, hf, hl]
  · intro part dst oracle c rest hf hexc
    have hl := sendChunkLoop_all_exceptions oracle dst
      (chunkReq part part.lastCommittedLogId c) part.lastCommittedLogId
      (decide (c.status = SnapshotStatus.DONE)) 0
      FLAGS_snapshot_send_retry_times 0 0 (fun j hj => by simpa using hexc j hj)
    have hstop : accessAllRowsInSnapshot
        (snapshotCallback part dst part.lastCommittedLogId oracle) (c :: rest) 0 0 =
        ((snapshotCallback part dst part.lastCommittedLogId oracle c 0 0).2.1,
         (snapshotCallback part dst part.lastCommittedLogId oracle c 0 0).2.2.1) :=
      accessAll_stops_on_false _ _ _ _ _ (by simp [snapshotCallback, hf, hl.1])
    show (accessAllRowsInSnapshot _ (c :: rest) 0 0).2 = _ ∧
      snapSendCount (accessAllRowsInSnapshot _ (c :: rest) 0 0).1 = _ ∧
      snapSleepCount (accessAllRowsInSnapshot _ (c :: rest) 0 0).1 = _
    rw [hstop]
    refine ⟨?_, ?_, ?_⟩
    · simpa [snapshotCallback, hf] using hl.2.1
    · simpa [snapshotCallback, hf] using hl.2.2.1
    · simpa [snapshotCallback, hf] using hl.2.2.2

/-- Witness for C4: a non-success acknowledgment aborts the transfer after one
send; an always-raising transport exhausts the budget; a retried send implies
the previous attempt raised. -/
theorem C4_chunk_send_retry_policy_witness :
    sendSnapshot snapPart0 snapDst0 snapChunksMD (fun _ => some (ErrorCode.E_OTHER 5)) =
      ([SnapEvent.send 0 0 snapDst0 (chunkReq snapPart0 (10, 6)
          ⟨["r1"], 1, 8, SnapshotStatus.MORE⟩),
        SnapEvent.respOk 0 (ErrorCode.E_OTHER 5),
        SnapEvent.setValue (SnapResult.error "Send snapshot failed!")],
       [SnapResult.error "Send snapshot failed!"]) ∧
    (sendSnapshot snapPart0 snapDst0 snapChunksMD (fun _ => none)).2 =
      [SnapResult.error "Send snapshot failed!"] ∧
    snapSendCount (sendSnapshot snapPart0 snapDst0 snapChunksMD (fun _ => none)).1 = 3 ∧
    (fun _ : Nat => (none : Option ErrorCode)) (0 + 0) = none := by
  refine ⟨?_, ?_, ?_, ?_⟩
  · have := C4_chunk_send_retry_policy.2.2.1 snapPart0 snapDst0
      (fun _ => some (ErrorCode.E_OTHER 5)) ⟨["r1"], 1, 8, SnapshotStatus.MORE⟩
      [⟨["r2"], 2, 16, SnapshotStatus.DONE⟩] (ErrorCode.E_OTHER 5)
      (by decide) rfl (by decide)
    exact this
  · exact (C4_chunk_send_retry_policy.2.2.2 snapPart0 snapDst0 (fun _ => none)
      ⟨["r1"], 1, 8, SnapshotStatus.MORE⟩ [⟨["r2"], 2, 16, SnapshotStatus.DONE⟩]
      (by decide) (fun j _ => rfl)).1
  · exact (C4_chunk_send_retry_policy.2.2.2 snapPart0 snapDst0 (fun _ => none)
      ⟨["r1"], 1, 8, SnapshotStatus.MORE⟩ [⟨["r2"], 2, 16, SnapshotStatus.DONE⟩]
      (by decide) (fun j _ => rfl)).2.1
  · exact C4_chunk_send_retry_policy.2.1 (fun _ => none) snapDst0
      (chunkReq snapPart0 (10, 6) ⟨["r1"], 1, 8, SnapshotStatus.MORE⟩) (10, 6)
      false 0 0 0 0 (by decide)

/-- C6: every invocation of `sendSnapshot` (over a well-formed iteration
script: some `MORE` invocations closed by one `DONE` or `FAILED` invocation)
and of each chain-write operation (given a terminal attempt within the fuel
bound — leadership churn is the one path the C++ retries forever by design)
resolves its result promise/future exactly once: never zero and never two
resolutions, on success, leader-lookup failure, receiver-reported failure,
retry-budget exhaustion and row-iteration failure alike. -/
theorem C6_exactly_one_resolution :
    (∀ (part : RaftPart) (dst : HostAddr) (oracle : Nat → Option ErrorCode)
        (ms : List ChunkInput) (e : ChunkInput),
      (∀ c ∈ ms, c.status = SnapshotStatus.MORE) →
      e.status ≠ SnapshotStatus.MORE →
      ((sendSnapshot part dst (ms ++ [e]) oracle).2).length = 1) ∧
    (∀ (env : ChainEnv) (req : UpdateEdgeRequest) (t : TermID) (v : Option Int)
        (evb : EventBase) (fuel s : Nat),
      (∃ k, k < fuel ∧ chainTerminal env req.space_id req.part_id (s + k)) →
      (promiseSets (chainUpdateEdge env req t v evb fuel s)).length = 1) ∧
    (∀ (env : ChainEnv) (req : AddEdgesRequest) (t : TermID) (v : Option Int)
        (evb : EventBase) (fuel s p0 : Nat) (b : String)
        (ps : List (PartitionID × String)),
      req.parts = (p0, b) :: ps →
      (∃ k, k < fuel ∧ chainTerminal env req.space_id p0 (s + k)) →
      (promiseSets (chainAddEdges env req t v evb fuel s)).length = 1) ∧
    (∀ (env : ChainEnv) (req : DeleteEdgesRequest) (txnId : String) (t : TermID)
        (evb : EventBase) (fuel s p0 : Nat) (b : String)
        (ps : List (PartitionID × String)),
      req.parts = (p0, b) :: ps →
      (∃ k, k < fuel ∧ chainTerminal env req.space_id p0 (s + k)) →
      (promiseSets (chainDeleteEdges env req txnId t evb fuel s)).length = 1) := by
  refine ⟨?_, ?_, ?_, ?_⟩
  · intro part dst oracle ms e hm he
    exact snapshotTrace_resolutions_once part dst part.lastCommittedLogId oracle
      ms e 0 0 hm he
  · intro env req t v evb fuel s h
    exact chainUpdateEdge_resolves_once env req t v fuel s evb h
  · intro env req t v evb fuel s p0 b ps hparts h
    exact chainAddEdges_resolves_once env req t v p0 b ps hparts fuel s evb h
  · intro env req txnId t evb fuel s p0 b ps hparts h
    exact chainDeleteEdges_resolves_once env req txnId t p0 b ps hparts fuel s evb h

/-- Witness for C6: one resolution on a concrete snapshot run (with a
transport that raises) and on concrete runs of the three chain operations
(success after two leadership changes). -/
theorem C6_exactly_one_resolution_witness :
    ((sendSnapshot snapPart0 snapDst0 snapChunksMD (fun _ => none)).2).length = 1 ∧
    (promiseSets (chainUpdateEdge c2WitnessEnv ⟨1, 2, "e"⟩ 5 none none 3 0)).length = 1 ∧
    (promiseSets (chainAddEdges c2WitnessEnv ⟨1, [(2, "b")], [], false⟩ 5 none
      none 3 0)).length = 1 ∧
    (promiseSets (chainDeleteEdges c2WitnessEnv ⟨1, [(2, "b")]⟩ "tx" 5 none
      3 0)).length = 1 := by
  refine ⟨?_, ?_, ?_, ?_⟩
  · exact C6_exactly_one_resolution.1 snapPart0 snapDst0 (fun _ => none)
      [⟨["r1"], 1, 8, SnapshotStatus.MORE⟩] ⟨["r2"], 2, 16, SnapshotStatus.DONE⟩
      (by decide) (by decide)
  · exact C6_exactly_one_resolution.2.1 c2WitnessEnv ⟨1, 2, "e"⟩ 5 none none 3 0
      ⟨2, by decide, by right; decide⟩
  · exact C6_exactly_one_resolution.2.2.1 c2WitnessEnv ⟨1, [(2, "b")], [], false⟩ 5 none
      none 3 0 2 "b" [] rfl ⟨2, by decide, by right; decide⟩
  · exact C6_exactly_one_resolution.2.2.2 c2WitnessEnv ⟨1, [(2, "b")]⟩ "tx" 5 none
      3 0 2 "b" [] rfl ⟨2, by decide, by right; decide⟩

/-- Witness for C1: concrete evaluations discharging each hypothesis. -/
theorem C1_getErrorCode_cases_witness :
    getErrorCode (some ⟨StatusCode.kLeaderChanged, ⟨[]⟩⟩) = ErrorCode.E_LEADER_CHANGED ∧
    getErrorCode (some ⟨StatusCode.kOther 7, ⟨[]⟩⟩) = ErrorCode.E_UNKNOWN ∧
    getErrorCode (some ⟨StatusCode.kOk, ⟨[⟨ErrorCode.E_OTHER 3, 9⟩]⟩⟩) = ErrorCode.E_OTHER 3 ∧
    getErrorCode (some ⟨StatusCode.kOk, ⟨[]⟩⟩) = ErrorCode.SUCCEEDED := by
  refine ⟨?_, ?_, ?_, ?_⟩
  · exact (C1_getErrorCode_cases.2.1 ⟨StatusCode.kLeaderChanged, ⟨[]⟩⟩ (by decide)).trans (by decide)
  · exact (C1_getErrorCode_cases.2.1 ⟨StatusCode.kOther 7, ⟨[]⟩⟩ (by decide)).trans (by decide)
  · exact C1_getErrorCode_cases.2.2 ⟨StatusCode.kOk, ⟨[⟨ErrorCode.E_OTHER 3, 9⟩]⟩⟩ rfl
  · exact C1_getErrorCode_cases.2.2 ⟨StatusCode.kOk, ⟨[]⟩⟩ rfl

end Nebula
